import Mathlib

/-!
Shallow embedding of the CashBlocks block-graph compiler
(src/src/compiler/BlockGraphCompiler.ts, src/src/compiler/templates.ts,
src/src/compiler/address.ts) together with the supporting data model
(src/src/types/index.ts), plus proofs about the embedded functions.

JavaScript specifics are modelled explicitly: `bigint` values become `Int`,
optional fields become `Option`, string truthiness (empty string is falsy)
is checked where the source checks truthiness, and exceptions thrown as
`TemplateError` become `Except String`.  Unbounded recursion in the source
(DFS over a graph that may contain cycles) is modelled with an explicit
fuel parameter; fuel sufficiency for the sequencer is proved below.
-/

set_option maxRecDepth 10000

namespace CashBlocks

/-- Block types, from src/src/types/index.ts (closed union of the four groups). -/
inductive BlockType where
  | BCH_RECEIVED | TOKEN_RECEIVED | TIME_PASSED | MULTISIG_SIGNED | PRICE_ABOVE | HASH_LOCK
  | IF_ELSE | AND | OR | COMPARE_VALUE | CHECK_ADDRESS
  | SEND_BCH | SEND_TOKEN | SPLIT_PERCENT | TIME_LOCK_OUTPUT | SEND_BACK
  | STORE_IN_NFT | READ_FROM_NFT | INCREMENT_COUNTER
  deriving DecidableEq, Repr

/-- Block categories, from src/src/types/index.ts. -/
inductive BlockCategory where
  | trigger | logic | action | state
  deriving DecidableEq, Repr

/-- Constructor-argument types, from src/src/types/index.ts. -/
inductive ArgType where
  | bytes20 | int | bytes | pubkey | sig
  deriving DecidableEq, Repr

/-- The string name of an ArgType, as it appears in generated source. -/
def ArgType.str : ArgType → String
  | .bytes20 => "bytes20"
  | .int => "int"
  | .bytes => "bytes"
  | .pubkey => "pubkey"
  | .sig => "sig"

/-- Parameter bag of a block node (all fields optional in the source). -/
structure BlockParams where
  minAmount : Option Int := none
  categoryHex : Option String := none
  days : Option Int := none
  required : Option Int := none
  total : Option Int := none
  usdThreshold : Option Int := none
  expectedHash : Option String := none
  operator : Option String := none
  threshold : Option Int := none
  recipientHash : Option String := none
  percent : Option Int := none
  key : Option String := none
  timeUnit : Option String := none
  conditionExpr : Option String := none
  deriving DecidableEq, Repr

/-- A constructor argument of the generated contract.  The deploy-time
`value` field of the source interface is never set during compilation and
is omitted. -/
structure ConstructorArg where
  name : String
  type : ArgType
  timeOffsetSeconds : Option Int := none
  deriving DecidableEq, Repr

/-- A block node of the graph. -/
structure BlockNode where
  id : String
  type : BlockType
  category : BlockCategory
  params : BlockParams
  children : List String
  deriving DecidableEq, Repr

/-- Edge discriminator. -/
inductive EdgeType where
  | next | condition_true | condition_false
  deriving DecidableEq, Repr

/-- A directed edge (the source field names are from/to; from is a Lean keyword). -/
structure Edge where
  fromId : String
  toId : String
  type : EdgeType
  deriving DecidableEq, Repr

/-- The compilation unit. -/
structure BlockGraph where
  trigger : Option BlockNode
  nodes : List BlockNode
  edges : List Edge
  deriving DecidableEq, Repr

/-- Result of compile. -/
structure CompileResult where
  source : String
  constructorArgs : List ConstructorArg
  error : Option String := none
  deriving DecidableEq, Repr

/-- JavaScript truthiness of an optional string (undefined and the empty
string are falsy). -/
def strTruthy : Option String → Bool
  | none => false
  | some s => s ≠ ""

/-- JavaScript String.prototype.trim modelled over the character list
(the built-in String.trim is byte-position based and kernel-opaque). -/
def jsTrim (s : String) : String :=
  String.mk (((s.data.dropWhile Char.isWhitespace).reverse.dropWhile Char.isWhitespace).reverse)

/-- JavaScript String.prototype.toLowerCase modelled over the character
list (ASCII case mapping, which is all the compiler ever lowercases). -/
def toLowerStr (s : String) : String :=
  String.mk (s.data.map Char.toLower)

/-- Split a character list at every occurrence of a separator character
(JavaScript String.prototype.split with a single-character separator). -/
def splitOnChar (c : Char) : List Char → List (List Char)
  | [] => [[]]
  | d :: rest =>
    match splitOnChar c rest with
    | [] => [[]]
    | part :: parts => if d == c then [] :: part :: parts else (d :: part) :: parts

/-- Split a string into lines (JavaScript split on a newline). -/
def splitLines (s : String) : List String :=
  (splitOnChar (Char.ofNat 10) s.data).map String.mk

/-- String containment of a single character (JavaScript includes with a
one-character needle). -/
def containsChar (s : String) (c : Char) : Bool :=
  s.data.contains c

/-- Leading-prefix test over character lists (JavaScript startsWith). -/
def startsWithStr (s pat : String) : Bool :=
  List.isPrefixOf pat.data s.data

/- ===================== address.ts ===================== -/

/-- Result record of normalizeRecipientHash (src/src/compiler/address.ts). -/
structure NormalizeResult where
  hex : Option String := none
  error : Option String := none
  deriving DecidableEq, Repr

/-- Hex digit test matching the character class [0-9a-fA-F]. -/
def isHexDigitChar (c : Char) : Bool :=
  (decide ('0' ≤ c) && decide (c ≤ '9')) ||
  (decide ('a' ≤ c) && decide (c ≤ 'f')) ||
  (decide ('A' ≤ c) && decide (c ≤ 'F'))

/-- The regular expression ^0x?([0-9a-fA-F]{40})$ from address.ts line 38,
returning the capture group when the whole string matches.  The pattern
requires a literal character 0, then an optional x, then exactly forty hex
digits; since x is not a hex digit, no backtracking alternative exists. -/
def hexMatch40 (s : String) : Option String :=
  match s.toList with
  | '0' :: 'x' :: rest =>
    if rest.length = 40 ∧ rest.all isHexDigitChar then some (String.mk rest) else none
  | '0' :: rest =>
    if rest.length = 40 ∧ rest.all isHexDigitChar then some (String.mk rest) else none
  | _ => none

/-- Hex character for a value below 16 (lowercase, as produced by
JavaScript Number.prototype.toString(16)). -/
def hexDigitChar (n : Nat) : Char :=
  if n < 10 then Char.ofNat (48 + n) else Char.ofNat (87 + n)

/-- One byte to two lowercase hex digits (bytesToHex helper of address.ts). -/
def byteToHex (b : Nat) : String :=
  String.mk [hexDigitChar (b / 16 % 16), hexDigitChar (b % 16)]

/-- bytesToHex from address.ts. -/
def bytesToHex (bytes : List Nat) : String :=
  String.join (bytes.map byteToHex)

/-- CashAddress type discriminator of the external libauth library. -/
inductive CashAddressType where
  | p2pkh | p2sh | p2pkhWithTokens | p2shWithTokens
  deriving DecidableEq, Repr

/-- Decoded CashAddress record of the external libauth library. -/
structure DecodedCashAddress where
  pfx : String
  type : CashAddressType
  payload : List Nat
  deriving DecidableEq, Repr

/-- The bech32 character set used by the CashAddr format. -/
def cashAddrCharset : List Char :=
  ['q','p','z','r','y','9','x','8','g','f','2','t','v','d','w','0',
   's','3','j','n','5','4','k','h','c','e','6','m','u','a','7','l']

/-- Index of a character in the CashAddr charset. -/
def charsetIndex (c : Char) : Option Nat :=
  cashAddrCharset.findIdx? (fun d => d == c)

/-- One step of the CashAddr BCH checksum polymod. -/
def polymodStep (c : Nat) (d : Nat) : Nat :=
  let c0 := c >>> 35
  let c1 := Nat.xor ((c &&& 0x07ffffffff) <<< 5) d
  let c2 := if c0 &&& 0x01 ≠ 0 then Nat.xor c1 0x98f2bc8e61 else c1
  let c3 := if c0 &&& 0x02 ≠ 0 then Nat.xor c2 0x79b76d99e2 else c2
  let c4 := if c0 &&& 0x04 ≠ 0 then Nat.xor c3 0xf33e5fb3c4 else c3
  let c5 := if c0 &&& 0x08 ≠ 0 then Nat.xor c4 0xae2eabe2a8 else c4
  if c0 &&& 0x10 ≠ 0 then Nat.xor c5 0x1e4f43e470 else c5

/-- The CashAddr BCH checksum polymod over a list of 5-bit values. -/
def polymod (v : List Nat) : Nat :=
  Nat.xor (v.foldl polymodStep 1) 1

/-- Prefix expansion for the CashAddr checksum: the low five bits of every
prefix character, followed by a zero separator. -/
def prefixExpand (pfx : String) : List Nat :=
  pfx.toList.map (fun c => c.toNat &&& 0x1f) ++ [0]

/-- Regroup a list of 5-bit values into 8-bit bytes, rejecting excessive or
nonzero padding (libauth regroupBits with allowPadding disabled). -/
def regroup5to8 (vals : List Nat) : Option (List Nat) :=
  let st := vals.foldl
    (fun (st : List Nat × Nat × Nat) d =>
      let out := st.1
      let acc := (st.2.1 <<< 5) ||| d
      let bits := st.2.2 + 5
      if 8 ≤ bits then (out ++ [(acc >>> (bits - 8)) &&& 0xff], acc, bits - 8)
      else (out, acc, bits))
    ([], 0, 0)
  if 5 ≤ st.2.2 then none
  else if st.2.1 &&& ((1 <<< st.2.2) - 1) ≠ 0 then none
  else some st.1

/-- Hash length in bytes encoded by the low three bits of a CashAddr
version byte. -/
def cashAddrHashLength (sizeBits : Nat) : Nat :=
  [20, 24, 28, 32, 40, 48, 56, 64].getD sizeBits 20

/-- Modelled from the spec: the repository delegates CashAddress parsing to
the external libauth decodeCashAddress function, which is not part of this
repository.  This models it per the public CashAddr specification: split
prefix and payload at the colon, decode base32 characters, verify the
40-bit BCH polymod checksum, regroup the data bits into bytes, and check
the version byte (reserved bit, address type bits, declared hash length).
Error strings are representative; the compiler only branches on whether an
error occurred. -/
def decodeCashAddress (address : String) : Except String DecodedCashAddress :=
  match (splitOnChar (Char.ofNat 58) (toLowerStr address).data).map String.mk with
  | [pfx, dataPart] =>
    if pfx = "" ∨ dataPart = "" then .error "invalid CashAddress format"
    else
      match dataPart.toList.mapM charsetIndex with
      | none => .error "address includes non-bech32 characters"
      | some vals =>
        if polymod (prefixExpand pfx ++ vals) ≠ 0 then
          .error "invalid checksum"
        else
          match regroup5to8 (vals.take (vals.length - 8)) with
          | none => .error "improper padding"
          | some bytes =>
            match bytes with
            | [] => .error "empty payload"
            | version :: hash =>
              if version &&& 0x80 ≠ 0 then .error "reserved bit is set"
              else
                let typeBits := (version >>> 3) &&& 0x0f
                match (match typeBits with
                  | 0 => some CashAddressType.p2pkh
                  | 1 => some CashAddressType.p2sh
                  | 2 => some CashAddressType.p2pkhWithTokens
                  | 3 => some CashAddressType.p2shWithTokens
                  | _ => none) with
                | none => .error "unknown address type"
                | some t =>
                  if hash.length ≠ cashAddrHashLength (version &&& 0x07) then
                    .error "mismatched hash length"
                  else .ok { pfx := pfx, type := t, payload := hash }
  | _ => .error "invalid CashAddress format"

/-- normalizeRecipientHash from src/src/compiler/address.ts: accept a value
matching ^0x?([0-9a-fA-F]{40})$ as a raw hash (lowercased capture group);
otherwise treat the value as a CashAddress (prefixed with bchtest: when it
has no colon), requiring a P2PKH type and a 20-byte payload. -/
def normalizeRecipientHash (value : Option String) : NormalizeResult :=
  match value with
  | none => {}
  | some v =>
    if v = "" then {}
    else
      let trimmed := jsTrim v
      if trimmed.length = 0 then {}
      else
        match hexMatch40 trimmed with
        | some captured => { hex := some (toLowerStr captured) }
        | none =>
          let candidate := if containsChar trimmed (Char.ofNat 58) then trimmed else "bchtest:" ++ trimmed
          match decodeCashAddress candidate with
          | .error msg => { error := some ("Invalid CashAddress: " ++ msg) }
          | .ok decoded =>
            if decoded.type ≠ CashAddressType.p2pkh then
              { error := some "Recipient CashAddress must be a P2PKH address" }
            else if decoded.payload.length ≠ 20 then
              { error := some "Recipient hash must be 20 bytes (hash160) for P2PKH outputs" }
            else { hex := some (bytesToHex decoded.payload) }

/- ===================== templates.ts ===================== -/

/-- Template result: code snippet, required constructor arguments, and an
optional error (src/src/compiler/templates.ts). -/
structure TemplateResult where
  code : String
  constructorArgs : List ConstructorArg
  error : Option String := none
  deriving DecidableEq, Repr

/-- triggerTemplate from templates.ts: one guard per trigger block type. -/
def triggerTemplate (type : BlockType) (params : BlockParams) : TemplateResult :=
  match type with
  | .BCH_RECEIVED =>
    let minAmount := params.minAmount.getD 10000
    { code := "        // TRIGGER: BCH received\n        require(tx.inputs[0].value >= "
        ++ toString minAmount ++ ");"
      constructorArgs := [] }
  | .TOKEN_RECEIVED =>
    if strTruthy params.categoryHex then
      { code := "        // TRIGGER: Token received\n        require(tx.inputs[0].tokenCategory == 0x"
          ++ params.categoryHex.getD "" ++ ");"
        constructorArgs := [] }
    else
      { code := "        // TRIGGER: Token received\n        require(tx.inputs[0].tokenCategory == tokenCategory);"
        constructorArgs := [{ name := "tokenCategory", type := .bytes }] }
  | .TIME_PASSED =>
    let value := params.days.getD 30
    let unit := params.timeUnit.getD "DAYS"
    let unitLabel := if unit = "MINUTES" then "minutes" else if unit = "HOURS" then "hours" else "days"
    let multiplier : Int := if unit = "MINUTES" then 60 else if unit = "HOURS" then 3600 else 86400
    let timeOffsetSeconds := value * multiplier
    { code := "        // TRIGGER: Time passed (" ++ toString value ++ " " ++ unitLabel
        ++ ")\n        require(tx.time >= unlockTime);"
      constructorArgs := [{ name := "unlockTime", type := .int, timeOffsetSeconds := some timeOffsetSeconds }] }
  | .MULTISIG_SIGNED =>
    let required := params.required.getD 2
    let total := params.total.getD 3
    let pubkeyArgs : List ConstructorArg :=
      (List.range total.toNat).map (fun i => { name := "pk" ++ toString i, type := .pubkey })
    let sigList := String.intercalate ", " ((List.range required.toNat).map (fun i => "s" ++ toString i))
    let pubkeyList := String.intercalate ", " ((List.range total.toNat).map (fun i => "pk" ++ toString i))
    { code := "        // TRIGGER: Multisig (" ++ toString required ++ " of " ++ toString total
        ++ ")\n        require(checkMultiSig([" ++ sigList ++ "], [" ++ pubkeyList ++ "]));"
      constructorArgs := pubkeyArgs }
  | .PRICE_ABOVE =>
    let threshold := params.usdThreshold.getD 500
    { code := "        // TRIGGER: Price above threshold (requires oracle)\n        // Note: Oracle integration required for production\n        require(oraclePrice >= "
        ++ toString threshold ++ ");"
      constructorArgs := [{ name := "oraclePrice", type := .int }] }
  | .HASH_LOCK =>
    if strTruthy params.expectedHash then
      { code := "        // TRIGGER: Hash lock — caller must reveal secret preimage\n        // preimage is passed as a function argument (see function signature)\n        require(hash256(preimage) == 0x"
          ++ params.expectedHash.getD "" ++ ");"
        constructorArgs := [] }
    else
      { code := "        // TRIGGER: Hash lock — caller must reveal secret preimage\n        // preimage is passed as a function argument (see function signature)\n        require(hash256(preimage) == expectedHash);"
        constructorArgs := [{ name := "expectedHash", type := .bytes }] }
  | _ => { code := "", constructorArgs := [] }

/-- logicTemplate from templates.ts. -/
def logicTemplate (type : BlockType) (params : BlockParams) : TemplateResult :=
  match type with
  | .IF_ELSE => { code := "", constructorArgs := [] }
  | .AND => { code := "        // LOGIC: AND condition", constructorArgs := [] }
  | .OR => { code := "        // LOGIC: OR condition", constructorArgs := [] }
  | .COMPARE_VALUE =>
    let operator := params.operator.getD ">"
    let threshold := params.threshold.getD 10000
    { code := "        // LOGIC: Compare value\n        require(tx.inputs[0].value " ++ operator
        ++ " " ++ toString threshold ++ ");"
      constructorArgs := [] }
  | .CHECK_ADDRESS =>
    { code := "        // LOGIC: Check signature matches address\n        require(hash160(pk) == recipientHash);\n        require(checkSig(s, pk));"
      constructorArgs := [] }
  | _ => { code := "", constructorArgs := [] }

/-- actionTemplate from templates.ts: each action constrains the output at
its slot; SPLIT_PERCENT constrains the slot and the one after it. -/
def actionTemplate (type : BlockType) (params : BlockParams) (outputIndex : Nat) : TemplateResult :=
  match type with
  | .SEND_BCH =>
    if strTruthy params.recipientHash then
      let normalized := normalizeRecipientHash params.recipientHash
      match normalized.error with
      | some e => { code := "", constructorArgs := [], error := some e }
      | none =>
        match normalized.hex with
        | some hx =>
          if hx ≠ "" then
            { code := "        // ACTION: Send BCH to recipient\n        require(tx.outputs["
                ++ toString outputIndex ++ "].lockingBytecode == new LockingBytecodeP2PKH(0x" ++ hx
                ++ "));\n        require(tx.outputs[" ++ toString outputIndex
                ++ "].value >= tx.inputs[0].value - 1000);"
              constructorArgs := [] }
          else
            { code := "        // ACTION: Send BCH to recipient\n        require(tx.outputs["
                ++ toString outputIndex ++ "].lockingBytecode == new LockingBytecodeP2PKH(recipientHash));\n        require(tx.outputs["
                ++ toString outputIndex ++ "].value >= tx.inputs[0].value - 1000);"
              constructorArgs := [{ name := "recipientHash", type := .bytes20 }] }
        | none =>
          { code := "        // ACTION: Send BCH to recipient\n        require(tx.outputs["
              ++ toString outputIndex ++ "].lockingBytecode == new LockingBytecodeP2PKH(recipientHash));\n        require(tx.outputs["
              ++ toString outputIndex ++ "].value >= tx.inputs[0].value - 1000);"
            constructorArgs := [{ name := "recipientHash", type := .bytes20 }] }
    else
      { code := "        // ACTION: Send BCH to recipient\n        require(tx.outputs["
          ++ toString outputIndex ++ "].lockingBytecode == new LockingBytecodeP2PKH(recipientHash));\n        require(tx.outputs["
          ++ toString outputIndex ++ "].value >= tx.inputs[0].value - 1000);"
        constructorArgs := [{ name := "recipientHash", type := .bytes20 }] }
  | .SEND_TOKEN =>
    let afterRecipient : Except String (String × List ConstructorArg) :=
      if strTruthy params.recipientHash then
        let normalized := normalizeRecipientHash params.recipientHash
        match normalized.error with
        | some e => .error e
        | none =>
          match normalized.hex with
          | some hx =>
            if hx ≠ "" then .ok ("0x" ++ hx, [])
            else .ok ("recipientHash", [{ name := "recipientHash", type := .bytes20 }])
          | none => .ok ("recipientHash", [{ name := "recipientHash", type := .bytes20 }])
      else .ok ("recipientHash", [{ name := "recipientHash", type := .bytes20 }])
    match afterRecipient with
    | .error e => { code := "", constructorArgs := [], error := some e }
    | .ok (recipientExpr, tokenArgs) =>
      let categoryExpr :=
        if strTruthy params.categoryHex then "0x" ++ params.categoryHex.getD ""
        else "tokenCategory"
      let tokenArgs :=
        if strTruthy params.categoryHex then tokenArgs
        else tokenArgs ++ [{ name := "tokenCategory", type := .bytes }]
      { code := "        // ACTION: Send token to recipient\n        require(tx.outputs["
          ++ toString outputIndex ++ "].lockingBytecode == new LockingBytecodeP2PKH(" ++ recipientExpr
          ++ "));\n        require(tx.outputs[" ++ toString outputIndex ++ "].tokenCategory == "
          ++ categoryExpr ++ ");"
        constructorArgs := tokenArgs }
  | .SPLIT_PERCENT =>
    let percent := params.percent.getD 50
    let remaining : Int := 100 - percent
    { code := "        // ACTION: Split " ++ toString percent ++ "% / " ++ toString remaining
        ++ "%\n        int totalValue = tx.inputs[0].value - 1000;\n        int firstOutput = totalValue * "
        ++ toString percent ++ " / 100;\n        int secondOutput = totalValue - firstOutput;\n        require(tx.outputs["
        ++ toString outputIndex ++ "].value >= firstOutput);\n        require(tx.outputs["
        ++ toString (outputIndex + 1) ++ "].value >= secondOutput);"
      constructorArgs := [] }
  | .TIME_LOCK_OUTPUT =>
    let days := params.days.getD 30
    { code := "        // ACTION: Time lock output for " ++ toString days
        ++ " days\n        // Using sequence number for relative timelock\n        require(tx.outputs["
        ++ toString outputIndex ++ "].value >= tx.inputs[0].value - 1000);"
      constructorArgs := [] }
  | .SEND_BACK =>
    { code := "        // ACTION: Send back to contract\n        require(tx.outputs["
        ++ toString outputIndex ++ "].lockingBytecode == new LockingBytecodeP2SH32(hash256(this.activeBytecode)));"
      constructorArgs := [] }
  | _ => { code := "", constructorArgs := [] }

/-- stateTemplate from templates.ts. -/
def stateTemplate (type : BlockType) (params : BlockParams) : TemplateResult :=
  match type with
  | .STORE_IN_NFT =>
    let key := params.key.getD "data"
    { code := "        // STATE: Store in NFT commitment (key: " ++ key
        ++ ")\n        // NFT commitment is preserved in output\n        require(tx.outputs[0].nftCommitment == tx.inputs[0].nftCommitment);"
      constructorArgs := [] }
  | .READ_FROM_NFT =>
    let key := params.key.getD "data"
    { code := "        // STATE: Read from NFT commitment (key: " ++ key
        ++ ")\n        bytes storedData = tx.inputs[0].nftCommitment;"
      constructorArgs := [] }
  | .INCREMENT_COUNTER =>
    { code := "        // STATE: Increment counter in NFT\n        bytes oldCommitment = tx.inputs[0].nftCommitment;\n        int counter = int(oldCommitment);\n        int newCounter = counter + 1;\n        require(tx.outputs[0].nftCommitment == bytes8(newCounter));"
      constructorArgs := [] }
  | _ => { code := "", constructorArgs := [] }

/-- getBlockTemplate from templates.ts: route to the category template. -/
def getBlockTemplate (type : BlockType) (params : BlockParams) (category : BlockCategory)
    (outputIndex : Nat := 0) : TemplateResult :=
  match category with
  | .trigger => triggerTemplate type params
  | .logic => logicTemplate type params
  | .action => actionTemplate type params outputIndex
  | .state => stateTemplate type params

/-- getFunctionSignature from templates.ts. -/
def getFunctionSignature (hasSig : Bool) (hasMultisig : Bool) (sigCount : Int)
    (hasHashLock : Bool) : String :=
  let preimage := if hasHashLock then "bytes preimage, " else ""
  if hasMultisig then
    let sigs := String.intercalate ", " ((List.range sigCount.toNat).map (fun i => "sig s" ++ toString i))
    "function execute(" ++ preimage ++ sigs ++ ")"
  else if hasSig then "function execute(" ++ preimage ++ "sig s, pubkey pk)"
  else "function execute(" ++ preimage ++ "pubkey pk)"

/- ===================== BlockGraphCompiler.ts ===================== -/

/-- A validation error (the optional nodeId field is never set by the
validator and is omitted). -/
structure ValidationError where
  message : String
  deriving DecidableEq, Repr

/-- validateGraph from BlockGraphCompiler.ts: missing trigger preempts all
other checks; the trigger-in-node-set and at-least-one-action checks are
accumulated. -/
def validateGraph (graph : BlockGraph) : List ValidationError :=
  match graph.trigger with
  | none => [{ message := "Contract must have exactly one trigger block" }]
  | some trig =>
    let e1 : List ValidationError :=
      match graph.nodes.find? (fun n => n.id == trig.id) with
      | none => [{ message := "Trigger block not found in nodes" }]
      | some _ => []
    let e2 : List ValidationError :=
      if (graph.nodes.filter (fun n => n.category == BlockCategory.action)).length = 0 then
        [{ message := "Contract must have at least one action block" }]
      else []
    e1 ++ e2

/-- Lookup in the Map built by inserting every node keyed by its id: later
insertions overwrite earlier ones, so the last matching node wins. -/
def nodeMapLookup (nodes : List BlockNode) (id : String) : Option BlockNode :=
  (nodes.filter (fun n => n.id == id)).getLast?

/-- The recursive DFS visit of sortNodes, with explicit fuel for the
recursion (the source recursion is guarded by the visited set; fuel
sufficiency is proved below).  State: visited id set (as a list used only
for membership) and the accumulated sorted output. -/
def visit (nodeMap : List BlockNode) : Nat → List String → List BlockNode → String →
    List String × List BlockNode
  | 0, visited, sorted, _ => (visited, sorted)
  | fuel + 1, visited, sorted, nodeId =>
    if visited.contains nodeId then (visited, sorted)
    else
      let visited2 := nodeId :: visited
      match nodeMapLookup nodeMap nodeId with
      | none => (visited2, sorted)
      | some node =>
        node.children.foldl
          (fun st childId => visit nodeMap fuel st.1 st.2 childId)
          (visited2, sorted ++ [node])

/-- sortNodes with an explicit fuel bound. -/
def sortNodesFuel (graph : BlockGraph) (fuel : Nat) : List BlockNode :=
  match graph.trigger with
  | none => []
  | some trig => (visit graph.nodes fuel [] [] trig.id).2

/-- sortNodes from BlockGraphCompiler.ts: DFS pre-order from the trigger,
following each node's child list, guarded by a visited set.  The fuel
value nodes.length + 1 is sufficient (proved below). -/
def sortNodes (graph : BlockGraph) : List BlockNode :=
  sortNodesFuel graph (graph.nodes.length + 1)

/-- Insert template arguments into the accumulated list, skipping any whose
name is already present (the Map.has check of collectConstructorArgs). -/
def insertArgs (acc : List ConstructorArg) (args : List ConstructorArg) : List ConstructorArg :=
  args.foldl (fun acc arg => if acc.any (fun a => a.name == arg.name) then acc else acc ++ [arg]) acc

/-- The node loop of collectConstructorArgs; a template error becomes a
thrown TemplateError in the source, modelled as Except.error. -/
def collectConstructorArgsAux (acc : List ConstructorArg) :
    List BlockNode → Except String (List ConstructorArg)
  | [] => .ok acc
  | node :: rest =>
    let template := getBlockTemplate node.type node.params node.category
    match template.error with
    | some e => .error e
    | none => collectConstructorArgsAux (insertArgs acc template.constructorArgs) rest

/-- collectConstructorArgs from BlockGraphCompiler.ts: harvest constructor
arguments node by node, first occurrence of a name wins, insertion order. -/
def collectConstructorArgs (nodes : List BlockNode) : Except String (List ConstructorArg) :=
  collectConstructorArgsAux [] nodes

/-- Result record of needsSignature. -/
structure SignatureNeeds where
  hasSig : Bool
  hasMultisig : Bool
  sigCount : Int
  hasHashLock : Bool
  deriving DecidableEq, Repr

/-- needsSignature from BlockGraphCompiler.ts: CHECK_ADDRESS or any
action-category node forces hasSig; MULTISIG_SIGNED sets multisig mode and
the signature count; HASH_LOCK adds a preimage parameter. -/
def needsSignature (nodes : List BlockNode) : SignatureNeeds :=
  nodes.foldl
    (fun st node =>
      let st := if node.type == BlockType.CHECK_ADDRESS then { st with hasSig := true } else st
      let st := if node.type == BlockType.HASH_LOCK then { st with hasHashLock := true } else st
      let st :=
        if node.type == BlockType.MULTISIG_SIGNED then
          { st with hasMultisig := true, sigCount := node.params.required.getD 2 }
        else st
      if node.category == BlockCategory.action then { st with hasSig := true } else st)
    { hasSig := false, hasMultisig := false, sigCount := 2, hasHashLock := false }

/-- generateConstructorArgs from BlockGraphCompiler.ts. -/
def generateConstructorArgs (args : List ConstructorArg) : String :=
  if args.length = 0 then ""
  else String.intercalate ",\n" (args.map (fun arg => "    " ++ arg.type.str ++ " " ++ arg.name))

/-- Find the first edge leaving fromId with the given discriminator. -/
def findEdge (edges : List Edge) (fromId : String) (t : EdgeType) : Option Edge :=
  edges.find? (fun e => e.fromId == fromId && e.type == t)

/-- collectBranchIds from BlockGraphCompiler.ts: mark every node reachable
inside a branch arm (following sub-branches, their continuations, and each
statement chain) so the main loop can skip them.  Fuel bounds the recursion
depth; each productive level adds a fresh id to the collected set. -/
def collectBranchIds (nodeMap : List BlockNode) (edges : List Edge) :
    Nat → String → List String → List String
  | 0, _, collected => collected
  | fuel + 1, startId, collected =>
    if collected.contains startId then collected
    else
      match nodeMapLookup nodeMap startId with
      | none => collected
      | some node =>
        let collected2 := startId :: collected
        if node.type == BlockType.IF_ELSE then
          let c3 :=
            match findEdge edges node.id EdgeType.condition_true with
            | some e => collectBranchIds nodeMap edges fuel e.toId collected2
            | none => collected2
          let c4 :=
            match findEdge edges node.id EdgeType.condition_false with
            | some e => collectBranchIds nodeMap edges fuel e.toId c3
            | none => c3
          match findEdge edges node.id EdgeType.next with
          | some e => collectBranchIds nodeMap edges fuel e.toId c4
          | none => c4
        else
          match node.children.head? with
          | some child => collectBranchIds nodeMap edges fuel child collected2
          | none => collected2

/-- Prefix every line of a string with four spaces: the
replace(start-of-line, four spaces, global multiline) call applied to
branch code nested inside an if/else wrapper. -/
def indentLines (s : String) : String :=
  String.intercalate "\n" ((splitLines s).map (fun l => "    " ++ l))

/-- Reindent one template line: a leading 8-space indent becomes 12 spaces. -/
def reindentLine (line : String) : String :=
  if startsWithStr line "        " then "    " ++ line else line

/-- Reindent a whole template snippet for use inside a branch. -/
def reindentTemplate (code : String) : String :=
  String.intercalate "\n" ((splitLines code).map reindentLine)

/-- The while loop of generateBranchCode, producing the list of code lines
later joined with blank lines.  The loop variable currentId is falsy (ends
the loop) when it is undefined or the empty string.  Fuel bounds both the
loop and the nested-branch recursion (the source can diverge on cyclic
chains; every claim proved below supplies ample fuel). -/
def generateBranchLines (nodeMap : List BlockNode) (edges : List Edge) :
    Nat → Option String → Nat → Except String (List String)
  | 0, _, _ => .ok []
  | _ + 1, none, _ => .ok []
  | fuel + 1, some currentId, outputIndex =>
    if currentId = "" then .ok []
    else
      match nodeMapLookup nodeMap currentId with
      | none => .ok []
      | some node =>
        let isAction := node.category == BlockCategory.action
        if node.type == BlockType.IF_ELSE then do
          let condExpr := node.params.conditionExpr.getD "true"
          let thenCode ←
            match findEdge edges node.id EdgeType.condition_true with
            | some e => do
              let lines ← generateBranchLines nodeMap edges fuel (some e.toId) outputIndex
              pure (indentLines (String.intercalate "\n\n" lines) ++ "\n")
            | none => pure ""
          let elseCode ←
            match findEdge edges node.id EdgeType.condition_false with
            | some e => do
              let lines ← generateBranchLines nodeMap edges fuel (some e.toId) outputIndex
              pure (indentLines (String.intercalate "\n\n" lines) ++ "\n")
            | none => pure ""
          let code := "            if (" ++ condExpr ++ ") \x7b\n" ++ thenCode
            ++ "            \x7d else \x7b\n" ++ elseCode ++ "            \x7d"
          let rest ← generateBranchLines nodeMap edges fuel
            ((findEdge edges node.id EdgeType.next).map (fun e => e.toId)) outputIndex
          pure (code :: rest)
        else
          let template := getBlockTemplate node.type node.params node.category
            (if isAction then outputIndex else 0)
          match template.error with
          | some e => .error e
          | none => do
            let newIndex :=
              if node.type != BlockType.SPLIT_PERCENT && isAction then outputIndex + 1
              else outputIndex
            let rest ← generateBranchLines nodeMap edges fuel node.children.head? newIndex
            if template.code = "" then pure rest
            else pure (reindentTemplate template.code :: rest)

/-- generateBranchCode from BlockGraphCompiler.ts: the joined branch code. -/
def generateBranchCode (nodeMap : List BlockNode) (edges : List Edge) (fuel : Nat)
    (startId : String) (startOutputIndex : Nat) : Except String String :=
  (generateBranchLines nodeMap edges fuel (some startId) startOutputIndex).map
    (String.intercalate "\n\n")

/-- The main emission loop of generateFunctionBody: branch-owned nodes are
skipped; a conditional emits an if/else wrapper around both arms assembled
at the current output index; the output index advances after every
action-category node except SPLIT_PERCENT. -/
def mainLoopLines (nodeMap : List BlockNode) (edges : List Edge) (branchNodeIds : List String)
    (fuel : Nat) : List BlockNode → Nat → Except String (List String)
  | [], _ => .ok []
  | node :: rest, outputIndex =>
    if branchNodeIds.contains node.id then mainLoopLines nodeMap edges branchNodeIds fuel rest outputIndex
    else
      let isAction := node.category == BlockCategory.action
      let step : Except String (Option String) :=
        if node.type == BlockType.IF_ELSE then do
          let condExpr := node.params.conditionExpr.getD "true"
          let thenCode ←
            match findEdge edges node.id EdgeType.condition_true with
            | some e => (generateBranchCode nodeMap edges fuel e.toId outputIndex).map (· ++ "\n")
            | none => pure "            // empty branch\n"
          let elseCode ←
            match findEdge edges node.id EdgeType.condition_false with
            | some e => (generateBranchCode nodeMap edges fuel e.toId outputIndex).map (· ++ "\n")
            | none => pure "            // empty branch\n"
          pure (some ("        // LOGIC: Conditional branch\n        if (" ++ condExpr ++ ") \x7b\n"
            ++ thenCode ++ "        \x7d else \x7b\n" ++ elseCode ++ "        \x7d"))
        else
          let template := getBlockTemplate node.type node.params node.category
            (if isAction then outputIndex else 0)
          match template.error with
          | some e => .error e
          | none => if template.code = "" then .ok none else .ok (some template.code)
      match step with
      | .error e => .error e
      | .ok line =>
        let newIndex :=
          if node.type != BlockType.SPLIT_PERCENT && isAction then outputIndex + 1 else outputIndex
        match mainLoopLines nodeMap edges branchNodeIds fuel rest newIndex with
        | .error e => .error e
        | .ok lines =>
          match line with
          | some l => .ok (l :: lines)
          | none => .ok lines

/-- The branch pre-pass of generateFunctionBody: collect the ids owned by
the THEN/ELSE arms of every conditional node. -/
def branchOwnedIds (nodes : List BlockNode) (nodeMap : List BlockNode) (edges : List Edge)
    (fuel : Nat) : List String :=
  nodes.foldl
    (fun acc node =>
      if node.type == BlockType.IF_ELSE then
        let acc :=
          match findEdge edges node.id EdgeType.condition_true with
          | some e => collectBranchIds nodeMap edges fuel e.toId acc
          | none => acc
        match findEdge edges node.id EdgeType.condition_false with
        | some e => collectBranchIds nodeMap edges fuel e.toId acc
        | none => acc
      else acc)
    []

/-- generateFunctionBody from BlockGraphCompiler.ts.  The fuel bounds are
generous: nodes.length + 1 bounds the branch-marking recursion depth, and
a quadratic bound covers the worst-case acyclic nesting of branch code. -/
def generateFunctionBody (nodes : List BlockNode) (edges : List Edge) : Except String String :=
  let nodeMap := nodes
  let branchNodeIds := branchOwnedIds nodes nodeMap edges (nodes.length + 1)
  let fuel := nodes.length * nodes.length + nodes.length + 1
  (mainLoopLines nodeMap edges branchNodeIds fuel nodes 0).map (String.intercalate "\n\n")

/-- compile from BlockGraphCompiler.ts: validate, sort, collect constructor
arguments, choose the unlocking signature, assemble the body, and wrap it
in contract boilerplate; template errors abort with an empty source. -/
def compile (graph : BlockGraph) : CompileResult :=
  let validationErrors := validateGraph graph
  if 0 < validationErrors.length then
    { source := "", constructorArgs := []
      error := some (String.intercalate "; " (validationErrors.map (fun e => e.message))) }
  else
    let sortedNodes := sortNodes graph
    match collectConstructorArgs sortedNodes with
    | .error msg => { source := "", constructorArgs := [], error := some msg }
    | .ok constructorArgs =>
      let sn := needsSignature sortedNodes
      let functionSig := getFunctionSignature sn.hasSig sn.hasMultisig sn.sigCount sn.hasHashLock
      let constructorArgsStr := generateConstructorArgs constructorArgs
      match generateFunctionBody sortedNodes graph.edges with
      | .error msg => { source := "", constructorArgs := [], error := some msg }
      | .ok functionBody =>
        let contractName := "GeneratedContract"
        let constructorSection :=
          if constructorArgsStr ≠ "" then "(\n" ++ constructorArgsStr ++ "\n)" else "()"
        let sigCheck :=
          if sn.hasSig && !sn.hasMultisig then
            "        // Verify signature\n        require(checkSig(s, pk));\n\n"
          else ""
        { source := "pragma cashscript ^0.10.0;\n\ncontract " ++ contractName ++ constructorSection
            ++ " \x7b\n    " ++ functionSig ++ " \x7b\n" ++ sigCheck ++ functionBody
            ++ "\n    \x7d\n\x7d\n"
          constructorArgs := constructorArgs }

/- ===================== general helper lemmas ===================== -/

/-- A concatenation is empty exactly when both halves are. -/
theorem str_append_eq_empty_iff (a b : String) : (a ++ b = "") ↔ (a = "" ∧ b = "") := by
  constructor
  · intro h
    have hd : a.data ++ b.data = ([] : List Char) := congrArg String.data h
    rcases List.append_eq_nil.mp hd with ⟨h1, h2⟩
    exact ⟨String.ext h1, String.ext h2⟩
  · rintro ⟨rfl, rfl⟩
    rfl

/-- Number of positions at which pat occurs as a substring of s. -/
def countOccur (s pat : String) : Nat :=
  ((List.range (s.length + 1)).filter (fun i => List.isPrefixOf pat.data (s.data.drop i))).length

/-- Substring occurrence test. -/
def strContainsSub (s pat : String) : Bool :=
  (List.range (s.length + 1)).any (fun i => List.isPrefixOf pat.data (s.data.drop i))

/-- A branch walk starting from no node yields no lines, whatever the fuel:
the loop guard of generateBranchCode fails immediately on undefined. -/
theorem genBranchLines_none (nm : List BlockNode) (ed : List Edge) :
    ∀ (fuel i : Nat), generateBranchLines nm ed fuel none i = .ok [] := by
  intro fuel i
  cases fuel with
  | zero => rfl
  | succ n => rfl

/- ===================== sequencer lemmas ===================== -/

/-- The id list of a node map. -/
def nodeIds (nm : List BlockNode) : List String := nm.map (fun n => n.id)

/-- Number of distinct node-map keys not yet in the visited set; the
termination measure of the DFS visit. -/
def keysUnvisited (nm : List BlockNode) (v : List String) : Nat :=
  (((nodeIds nm).dedup).filter (fun i => !(v.contains i))).length

theorem contains_of_mem (v : List String) (a : String) (h : a ∈ v) : v.contains a = true :=
  List.elem_eq_true_of_mem h

theorem mem_of_contains (v : List String) (a : String) (h : v.contains a = true) : a ∈ v :=
  List.mem_of_elem_eq_true h

theorem nodeMapLookup_id (nm : List BlockNode) (id : String) (n : BlockNode)
    (h : nodeMapLookup nm id = some n) : n.id = id ∧ id ∈ nodeIds nm := by
  have hm : n ∈ nm.filter (fun x => x.id == id) := List.mem_of_mem_getLast? h
  have h2 := List.mem_filter.mp hm
  have hid : n.id = id := by simpa using h2.2
  exact ⟨hid, hid ▸ List.mem_map_of_mem (fun x => x.id) h2.1⟩

theorem visit_visited_ext (nm : List BlockNode) :
    ∀ fuel v s id, ∃ e, (visit nm fuel v s id).1 = e ++ v := by
  intro fuel
  induction fuel with
  | zero => exact fun v s id => ⟨[], rfl⟩
  | succ fuel ih =>
    have hfold : ∀ (cs : List String) (st : List String × List BlockNode),
        ∃ e, (cs.foldl (fun st c => visit nm fuel st.1 st.2 c) st).1 = e ++ st.1 := by
      intro cs
      induction cs with
      | nil => exact fun st => ⟨[], rfl⟩
      | cons c cs ihc =>
        intro st
        obtain ⟨e1, he1⟩ := ih st.1 st.2 c
        obtain ⟨e2, he2⟩ := ihc (visit nm fuel st.1 st.2 c)
        refine ⟨e2 ++ e1, ?_⟩
        rw [List.foldl_cons, he2, he1, List.append_assoc]
    intro v s id
    simp only [visit]
    split
    · exact ⟨[], rfl⟩
    · split
      · exact ⟨[id], rfl⟩
      · rename_i node _
        obtain ⟨e, he⟩ := hfold node.children (id :: v, s ++ [node])
        refine ⟨e ++ [id], ?_⟩
        rw [he, List.append_assoc]
        rfl

theorem keysUnvisited_append_le (nm : List BlockNode) (e v : List String) :
    keysUnvisited nm (e ++ v) ≤ keysUnvisited nm v := by
  apply List.Sublist.length_le
  apply List.monotone_filter_right
  intro a ha
  simp only [Bool.not_eq_true'] at ha ⊢
  cases hv : v.contains a
  · rfl
  · have hmem : a ∈ e ++ v := List.mem_append_right e (mem_of_contains v a hv)
    have hc : (e ++ v).contains a = true := contains_of_mem _ a hmem
    rw [hc] at ha
    cases ha

theorem contains_cons_ne (v : List String) (a b : String) (h : (b == a) = false) :
    ((a :: v).contains b) = (v.contains b) := by
  simp only [List.contains, List.elem, h]

theorem filter_unvisited_cons_length (v : List String) (a : String) (hv : v.contains a = false) :
    ∀ (l : List String), l.Nodup → a ∈ l →
      (l.filter (fun i => !((a :: v).contains i))).length + 1 =
      (l.filter (fun i => !(v.contains i))).length := by
  intro l
  induction l with
  | nil => exact fun _ h => absurd h (List.not_mem_nil a)
  | cons x xs ihl =>
    intro hnd hmem
    have hnd2 := List.nodup_cons.mp hnd
    by_cases hxa : x = a
    · subst hxa
      have h1 : ((x :: v).contains x) = true :=
        contains_of_mem _ x (List.mem_cons_self x v)
      rw [List.filter_cons, List.filter_cons]
      simp only [h1, Bool.not_true, Bool.false_eq_true, if_false, hv, Bool.not_false, if_true]
      have heq : xs.filter (fun i => !((x :: v).contains i)) =
          xs.filter (fun i => !(v.contains i)) := by
        apply List.filter_congr
        intro b hb
        have hbx : (b == x) = false := beq_eq_false_iff_ne.mpr (fun hbx => hnd2.1 (hbx ▸ hb))
        rw [contains_cons_ne v x b hbx]
      rw [heq, List.length_cons]
    · have hmem2 : a ∈ xs := by
        rcases List.mem_cons.mp hmem with h | h
        · exact absurd h.symm hxa
        · exact h
      have hxa2 : (x == a) = false := beq_eq_false_iff_ne.mpr hxa
      rw [List.filter_cons, List.filter_cons, contains_cons_ne v a x hxa2]
      cases hvx : (v.contains x)
      · simp only [Bool.not_false, if_true, List.length_cons]
        have := ihl hnd2.2 hmem2
        omega
      · simp only [Bool.not_true, Bool.false_eq_true, if_false]
        exact ihl hnd2.2 hmem2

theorem keysUnvisited_cons (nm : List BlockNode) (v : List String) (id : String)
    (hid : id ∈ nodeIds nm) (hv : v.contains id = false) :
    keysUnvisited nm (id :: v) + 1 = keysUnvisited nm v := by
  apply filter_unvisited_cons_length v id hv
  · exact List.nodup_dedup _
  · exact (List.mem_dedup).mpr hid

theorem visit_fuel_stable (nm : List BlockNode) :
    ∀ fuel v s id, keysUnvisited nm v < fuel →
      visit nm fuel v s id = visit nm (fuel + 1) v s id := by
  intro fuel
  induction fuel with
  | zero => exact fun v s id h => absurd h (Nat.not_lt_zero _)
  | succ fuel ih =>
    have hfold : ∀ (cs : List String) (st : List String × List BlockNode),
        keysUnvisited nm st.1 < fuel →
        cs.foldl (fun st c => visit nm fuel st.1 st.2 c) st =
        cs.foldl (fun st c => visit nm (fuel + 1) st.1 st.2 c) st := by
      intro cs
      induction cs with
      | nil => exact fun st _ => rfl
      | cons c cs ihc =>
        intro st h
        rw [List.foldl_cons, List.foldl_cons, ← ih st.1 st.2 c h]
        apply ihc
        obtain ⟨e, he⟩ := visit_visited_ext nm fuel st.1 st.2 c
        calc keysUnvisited nm (visit nm fuel st.1 st.2 c).1
            = keysUnvisited nm (e ++ st.1) := by rw [he]
          _ ≤ keysUnvisited nm st.1 := keysUnvisited_append_le nm e st.1
          _ < fuel := h
    intro v s id h
    simp only [visit]
    split
    · rfl
    · rename_i hc
      split
      · rfl
      · rename_i node hl
        apply hfold
        have hcf : v.contains id = false := by
          cases hcv : v.contains id
          · rfl
          · exact absurd hcv hc
        obtain ⟨hid_eq, hid_mem⟩ := nodeMapLookup_id nm id node hl
        have hk := keysUnvisited_cons nm v id hid_mem hcf
        show keysUnvisited nm (id :: v) < fuel
        omega

theorem visit_nodup (nm : List BlockNode) :
    ∀ fuel v s id,
      ((s.map (fun n => n.id)).Nodup) → (∀ n ∈ s, n.id ∈ v) →
      (((visit nm fuel v s id).2.map (fun n => n.id)).Nodup) ∧
      (∀ n ∈ (visit nm fuel v s id).2, n.id ∈ (visit nm fuel v s id).1) := by
  intro fuel
  induction fuel with
  | zero => exact fun v s id h1 h2 => ⟨h1, h2⟩
  | succ fuel ih =>
    have hfold : ∀ (cs : List String) (st : List String × List BlockNode),
        ((st.2.map (fun n => n.id)).Nodup) → (∀ n ∈ st.2, n.id ∈ st.1) →
        (((cs.foldl (fun st c => visit nm fuel st.1 st.2 c) st).2.map (fun n => n.id)).Nodup) ∧
        (∀ n ∈ (cs.foldl (fun st c => visit nm fuel st.1 st.2 c) st).2,
          n.id ∈ (cs.foldl (fun st c => visit nm fuel st.1 st.2 c) st).1) := by
      intro cs
      induction cs with
      | nil => exact fun st h1 h2 => ⟨h1, h2⟩
      | cons c cs ihc =>
        intro st h1 h2
        rw [List.foldl_cons]
        exact ihc _ (ih st.1 st.2 c h1 h2).1 (ih st.1 st.2 c h1 h2).2
    intro v s id h1 h2
    simp only [visit]
    split
    · exact ⟨h1, h2⟩
    · rename_i hc
      split
      · exact ⟨h1, fun n hn => List.mem_cons_of_mem id (h2 n hn)⟩
      · rename_i node hl
        obtain ⟨hid_eq, _⟩ := nodeMapLookup_id nm id node hl
        apply hfold
        · rw [List.map_append]
          apply List.Nodup.append h1
          · simp
          · intro x hx1 hx2
            simp only [List.map_cons, List.map_nil, List.mem_singleton, hid_eq] at hx2
            subst hx2
            rcases List.mem_map.mp hx1 with ⟨n, hn, hnid⟩
            apply hc
            apply contains_of_mem
            rw [← hnid]
            exact h2 n hn
        · intro n hn
          rcases List.mem_append.mp hn with h | h
          · exact List.mem_cons_of_mem id (h2 n h)
          · simp only [List.mem_singleton] at h
            subst h
            rw [hid_eq]
            exact List.mem_cons_self id v

theorem sortNodes_nodup_ids (g : BlockGraph) :
    ((sortNodes g).map (fun n => n.id)).Nodup := by
  unfold sortNodes sortNodesFuel
  cases g.trigger with
  | none => simp
  | some trig =>
    simp only []
    exact (visit_nodup g.nodes (g.nodes.length + 1) [] [] trig.id (by simp) (by simp)).1

theorem sortNodesFuel_stable (g : BlockGraph) (extra : Nat) :
    sortNodesFuel g (g.nodes.length + 1 + extra) = sortNodes g := by
  have hbase : keysUnvisited g.nodes [] ≤ g.nodes.length := by
    unfold keysUnvisited
    calc ((((nodeIds g.nodes).dedup).filter (fun i => !(([] : List String).contains i))).length)
        ≤ ((nodeIds g.nodes).dedup).length := List.length_filter_le _ _
      _ ≤ (nodeIds g.nodes).length := List.Sublist.length_le (List.dedup_sublist _)
      _ = g.nodes.length := List.length_map _ _
  induction extra with
  | zero => rfl
  | succ extra ihe =>
    unfold sortNodes sortNodesFuel at ihe ⊢
    cases htr : g.trigger with
    | none => rfl
    | some trig =>
      rw [htr] at ihe
      simp only []
      have hst := visit_fuel_stable g.nodes (g.nodes.length + 1 + extra) [] [] trig.id
        (by omega)
      rw [show g.nodes.length + 1 + (extra + 1) = g.nodes.length + 1 + extra + 1 from rfl,
        ← hst]
      exact ihe

/-- The flattened constructor-argument stream of the traversal: each node
contributes its template arguments in order. -/
def argsStream (nodes : List BlockNode) : List ConstructorArg :=
  (nodes.map (fun n => (getBlockTemplate n.type n.params n.category).constructorArgs)).flatten

/-- First-occurrence deduplication by name over a flat argument list, as
the spec words it: first occurrence wins, insertion order is kept. -/
def dedupFirstArgs : List ConstructorArg → List ConstructorArg
  | [] => []
  | x :: xs => x :: dedupFirstArgs (xs.filter (fun y => !(y.name == x.name)))
termination_by l => l.length
decreasing_by
  simp only [List.length_cons, Nat.lt_succ_iff]
  exact List.length_filter_le _ _

theorem insertArgs_append (acc : List ConstructorArg) (xs ys : List ConstructorArg) :
    insertArgs acc (xs ++ ys) = insertArgs (insertArgs acc xs) ys :=
  List.foldl_append _ _ _ _

theorem insertArgs_eq_dedupFirst (stream : List ConstructorArg) :
    ∀ acc, insertArgs acc stream =
      acc ++ dedupFirstArgs (stream.filter (fun a => !(acc.any (fun b => b.name == a.name)))) := by
  induction stream with
  | nil => intro acc; simp [insertArgs, dedupFirstArgs]
  | cons x xs ihs =>
    intro acc
    rw [List.filter_cons]
    cases hmem : acc.any (fun b => b.name == x.name) with
    | true =>
      have hstep : insertArgs acc (x :: xs) = insertArgs acc xs := by
        simp only [insertArgs, List.foldl_cons]
        rw [hmem]
        simp
      rw [hstep, ihs acc]
      simp
    | false =>
      have hstep : insertArgs acc (x :: xs) = insertArgs (acc ++ [x]) xs := by
        simp only [insertArgs, List.foldl_cons]
        rw [hmem]
        simp
      rw [hstep, ihs (acc ++ [x])]
      have hfe : xs.filter (fun a => !((acc ++ [x]).any (fun b => b.name == a.name))) =
          (xs.filter (fun a => !(acc.any (fun b => b.name == a.name)))).filter
            (fun y => !(y.name == x.name)) := by
        rw [List.filter_filter]
        apply List.filter_congr
        intro b _
        simp only [List.any_append, List.any_cons, List.any_nil, Bool.or_false, Bool.not_or]
        rw [Bool.and_comm]
        congr 1
        cases hbx : (b.name == x.name) with
        | true =>
          have hbn : b.name = x.name := eq_of_beq hbx
          simp [hbn]
        | false =>
          have hxb : ¬(x.name = b.name) := fun h => by simp [h] at hbx
          simp [beq_eq_false_iff_ne.mpr hxb]
      rw [hfe]
      simp only [Bool.not_false, if_true]
      rw [List.append_assoc, List.singleton_append]
      simp only [dedupFirstArgs]

theorem collectConstructorArgsAux_ok (nodes : List BlockNode) :
    ∀ acc, (∀ n ∈ nodes, (getBlockTemplate n.type n.params n.category).error = none) →
      collectConstructorArgsAux acc nodes = .ok (insertArgs acc (argsStream nodes)) := by
  induction nodes with
  | nil => intro acc _; simp [collectConstructorArgsAux, argsStream, insertArgs]
  | cons n ns ihn =>
    intro acc h
    have hn := h n (List.mem_cons_self n ns)
    simp only [collectConstructorArgsAux, hn]
    rw [ihn _ (fun m hm => h m (List.mem_cons_of_mem n hm))]
    congr 1
    simp only [argsStream, List.map_cons, List.flatten_cons]
    rw [insertArgs_append]

theorem mem_of_mem_dedupFirstArgs :
    ∀ (l : List ConstructorArg) (a : ConstructorArg), a ∈ dedupFirstArgs l → a ∈ l := by
  intro l
  induction l using dedupFirstArgs.induct with
  | case1 =>
    intro a h
    rw [dedupFirstArgs] at h
    cases h
  | case2 x xs ih =>
    intro a h
    rw [dedupFirstArgs] at h
    rcases List.mem_cons.mp h with h | h
    · exact h ▸ List.mem_cons_self x xs
    · exact List.mem_cons_of_mem x (List.mem_of_mem_filter (ih a h))

theorem dedupFirstArgs_names_nodup :
    ∀ (l : List ConstructorArg), ((dedupFirstArgs l).map (fun a => a.name)).Nodup := by
  intro l
  induction l using dedupFirstArgs.induct with
  | case1 =>
    rw [dedupFirstArgs]
    simp
  | case2 x xs ih =>
    rw [dedupFirstArgs]
    simp only [List.map_cons, List.nodup_cons]
    refine ⟨?_, ih⟩
    intro hmem
    rcases List.mem_map.mp hmem with ⟨b, hb, hbn⟩
    have hbf := mem_of_mem_dedupFirstArgs _ b hb
    have := (List.mem_filter.mp hbf).2
    rw [hbn] at this
    simp at this

theorem find?_filter_of_imp (q p : ConstructorArg → Bool)
    (himp : ∀ b, q b = true → p b = true) :
    ∀ (l : List ConstructorArg), (l.filter p).find? q = l.find? q := by
  intro l
  induction l with
  | nil => simp
  | cons x xs ih =>
    rw [List.filter_cons]
    cases hp : p x with
    | true =>
      simp only [if_true]
      rw [List.find?_cons, List.find?_cons]
      cases hq : q x
      · exact ih
      · rfl
    | false =>
      have hqx : q x = false := by
        cases hqc : q x
        · rfl
        · rw [himp x hqc] at hp
          cases hp
      simp only [Bool.false_eq_true, if_false]
      rw [ih, List.find?_cons, hqx]

theorem dedupFirstArgs_find? :
    ∀ (l : List ConstructorArg) (a : ConstructorArg), a ∈ dedupFirstArgs l →
      l.find? (fun b => b.name == a.name) = some a := by
  intro l
  induction l using dedupFirstArgs.induct with
  | case1 =>
    intro a h
    rw [dedupFirstArgs] at h
    cases h
  | case2 x xs ih =>
    intro a h
    rw [dedupFirstArgs] at h
    rcases List.mem_cons.mp h with h | h
    · subst h
      rw [List.find?_cons]
      simp
    · have hfil := mem_of_mem_dedupFirstArgs _ a h
      have hne := (List.mem_filter.mp hfil).2
      simp only [Bool.not_eq_true'] at hne
      have hanx : a.name ≠ x.name := fun hc => by simp [hc] at hne
      rw [List.find?_cons]
      have hxa : (x.name == a.name) = false := beq_eq_false_iff_ne.mpr (fun hc => hanx hc.symm)
      rw [hxa]
      rw [← find?_filter_of_imp (fun b => b.name == a.name) (fun y => !(y.name == x.name))]
      · exact ih a h
      · intro b hb
        have hba : b.name = a.name := eq_of_beq hb
        simp [hba, hne]

/- ===================== claim theorems ===================== -/

/-- C8: a graph with a null root trigger makes the validator report exactly
the one missing-trigger error (the remaining structural checks are never
evaluated), and compile returns that message — which contains the word
trigger — together with an empty source and an empty argument list. -/
theorem missing_trigger_short_circuit (g : BlockGraph) (h : g.trigger = none) :
    validateGraph g = [{ message := "Contract must have exactly one trigger block" }] ∧
    compile g = { source := "", constructorArgs := []
                  error := some "Contract must have exactly one trigger block" } ∧
    strContainsSub "Contract must have exactly one trigger block" "trigger" = true := by
  have hv : validateGraph g = [{ message := "Contract must have exactly one trigger block" }] := by
    unfold validateGraph
    rw [h]
  refine ⟨hv, ?_, by decide⟩
  unfold compile
  rw [hv]
  norm_num
  decide

theorem missing_trigger_short_circuit_witness :
    validateGraph { trigger := none, nodes := [], edges := [] } =
      [{ message := "Contract must have exactly one trigger block" }] ∧
    compile { trigger := none, nodes := [], edges := [] } =
      { source := "", constructorArgs := []
        error := some "Contract must have exactly one trigger block" } ∧
    strContainsSub "Contract must have exactly one trigger block" "trigger" = true :=
  missing_trigger_short_circuit { trigger := none, nodes := [], edges := [] } rfl

/-- C6: whenever compile returns a result with the error field set — from a
validation failure or from a template error thrown during constructor
argument collection or body generation — the source is the empty string
and the constructor-argument list is empty. -/
theorem compile_error_empty_result (g : BlockGraph) (e : String)
    (h : (compile g).error = some e) :
    (compile g).source = "" ∧ (compile g).constructorArgs = [] := by
  unfold compile at h ⊢
  by_cases hv : 0 < (validateGraph g).length
  · simp [hv]
  · simp [hv] at h ⊢
    rcases hc : collectConstructorArgs (sortNodes g) with msg | args
    · simp [hc]
    · simp [hc] at h ⊢
      rcases hb : generateFunctionBody (sortNodes g) g.edges with msg | body
      · simp [hb]
      · simp [hb] at h

theorem compile_error_empty_result_witness :
    (compile { trigger := none, nodes := [], edges := [] }).source = "" ∧
    (compile { trigger := none, nodes := [], edges := [] }).constructorArgs = [] :=
  compile_error_empty_result { trigger := none, nodes := [], edges := [] }
    "Contract must have exactly one trigger block" (by decide)

/-- C5: the hex fast path of normalizeRecipientHash matches the regular
expression with the pattern 0x?, which requires a literal zero before the
optional x.  A 40-hex-digit hash IS accepted with a 0x prefix (lowercased,
no error), but the SAME bare 40-digit hash does not match the pattern (its
length is 40, while any match has 41 or 42 characters), so it falls
through to CashAddress decoding, which fails — contradicting the claim
that raw hashes are accepted with and without the prefix and never take
the address-decoding path. -/
theorem bare_hex_hash_rejected :
    normalizeRecipientHash (some "0xAAAAaaaaaaaaaaaaaaaaaaaaaaaaaaaaaaaaaaaa") =
      { hex := some "aaaaaaaaaaaaaaaaaaaaaaaaaaaaaaaaaaaaaaaa", error := none } ∧
    (normalizeRecipientHash (some "aaaaaaaaaaaaaaaaaaaaaaaaaaaaaaaaaaaaaaaa")).hex = none ∧
    (normalizeRecipientHash (some "aaaaaaaaaaaaaaaaaaaaaaaaaaaaaaaaaaaaaaaa")).error.isSome = true := by
  refine ⟨by decide, by decide, by decide⟩

/-- C7: constructor-argument collection refines first-occurrence
deduplication by name over the flattened per-node argument stream: the
result is dedupFirstArgs of that stream (so the list order is
first-occurrence insertion order), the resulting names are pairwise
distinct, and every returned argument is the first argument of its name in
the stream — the one contributed by the earliest node. -/
theorem constructor_args_first_occurrence_dedup (nodes : List BlockNode)
    (h : ∀ n ∈ nodes, (getBlockTemplate n.type n.params n.category).error = none) :
    collectConstructorArgs nodes = .ok (dedupFirstArgs (argsStream nodes)) ∧
    (((dedupFirstArgs (argsStream nodes)).map (fun a => a.name)).Nodup) ∧
    (∀ a ∈ dedupFirstArgs (argsStream nodes),
      (argsStream nodes).find? (fun b => b.name == a.name) = some a) := by
  refine ⟨?_, dedupFirstArgs_names_nodup _, fun a ha => dedupFirstArgs_find? _ a ha⟩
  unfold collectConstructorArgs
  rw [collectConstructorArgsAux_ok nodes [] h]
  rw [insertArgs_eq_dedupFirst]
  simp

theorem constructor_args_first_occurrence_dedup_witness :
    collectConstructorArgs
      [{ id := "d1", type := .SEND_BCH, category := .action, params := {}, children := ["d2"] },
       { id := "d2", type := .SEND_BCH, category := .action, params := {}, children := [] }] =
      .ok (dedupFirstArgs (argsStream
        [{ id := "d1", type := .SEND_BCH, category := .action, params := {}, children := ["d2"] },
         { id := "d2", type := .SEND_BCH, category := .action, params := {}, children := [] }])) ∧
    (((dedupFirstArgs (argsStream
        [{ id := "d1", type := .SEND_BCH, category := .action, params := {}, children := ["d2"] },
         { id := "d2", type := .SEND_BCH, category := .action, params := {}, children := [] }])).map
        (fun a => a.name)).Nodup) ∧
    (∀ a ∈ dedupFirstArgs (argsStream
        [{ id := "d1", type := .SEND_BCH, category := .action, params := {}, children := ["d2"] },
         { id := "d2", type := .SEND_BCH, category := .action, params := {}, children := [] }]),
      (argsStream
        [{ id := "d1", type := .SEND_BCH, category := .action, params := {}, children := ["d2"] },
         { id := "d2", type := .SEND_BCH, category := .action, params := {}, children := [] }]).find?
        (fun b => b.name == a.name) = some a) :=
  constructor_args_first_occurrence_dedup
    [{ id := "d1", type := .SEND_BCH, category := .action, params := {}, children := ["d2"] },
     { id := "d2", type := .SEND_BCH, category := .action, params := {}, children := [] }]
    (by decide)

/-- C10: the sequencer is insensitive to extra fuel beyond nodes + 1 steps
(the visited set makes the DFS terminate on every graph, cyclic or not),
and the returned list never mentions a node identifier twice. -/
theorem sortNodes_nodup_terminates (g : BlockGraph) :
    (((sortNodes g).map (fun n => n.id)).Nodup) ∧
    (∀ extra, sortNodesFuel g (g.nodes.length + 1 + extra) = sortNodes g) :=
  ⟨sortNodes_nodup_ids g, fun extra => sortNodesFuel_stable g extra⟩

/-- Graph family for C3: a TIME_PASSED trigger with a set day count chained
to a SEND_BCH action whose recipient parameter is the given string. -/
def timePassedSendGraph (d : Int) (v : String) : BlockGraph :=
  { trigger := some { id := "t", type := .TIME_PASSED, category := .trigger, params := { days := some d }, children := ["a"] }
    nodes := [{ id := "t", type := .TIME_PASSED, category := .trigger, params := { days := some d }, children := ["a"] },
              { id := "a", type := .SEND_BCH, category := .action, params := { recipientHash := some v }, children := [] }]
    edges := [{ fromId := "t", toId := "a", type := EdgeType.next }] }

/-- C3 counterexample: at the concrete literal-wiring graph — ninety days,
recipient inlined as a 0x-prefixed 20-byte hash — compile returns one
constructor argument (the unlockTime deployment parameter emitted by every
TIME_PASSED trigger), not zero as the claim states. -/
theorem time_passed_literal_wiring_counterexample :
    (compile (timePassedSendGraph 90 "0xF4B4e67c87d5d88fff9f271a1f25a4be0d1a1234")).constructorArgs =
      [{ name := "unlockTime", type := ArgType.int, timeOffsetSeconds := some 7776000 }] ∧
    ¬((compile (timePassedSendGraph 90 "0xF4B4e67c87d5d88fff9f271a1f25a4be0d1a1234")).constructorArgs = []) := by
  refine ⟨by decide, by decide⟩

/-- C3 amended: for every TIME_PASSED day count and every recipient value
that trims to a 0x-prefixed 40-hex-digit hash, compile succeeds, inlines
the lowercased literal hash into the slot-0 output guard, and returns
exactly one constructor argument: the unlockTime int parameter (the
SEND_BCH action contributes none). -/
theorem time_passed_literal_wiring_amended (d : Int) (v : String) (hs : String)
    (h1 : jsTrim v = "0x" ++ hs) (h2 : hs.data.length = 40)
    (h3 : hs.data.all isHexDigitChar = true) :
    compile (timePassedSendGraph d v) =
      { source := "pragma cashscript ^0.10.0;\n\ncontract GeneratedContract(\n    int unlockTime\n) \x7b\n    function execute(sig s, pubkey pk) \x7b\n        // Verify signature\n        require(checkSig(s, pk));\n\n"
          ++ ("        // TRIGGER: Time passed (" ++ toString d ++ " " ++ "days"
               ++ ")\n        require(tx.time >= unlockTime);" ++ "\n\n"
               ++ ("        // ACTION: Send BCH to recipient\n        require(tx.outputs[" ++ toString (0 : Nat)
                  ++ "].lockingBytecode == new LockingBytecodeP2PKH(0x" ++ toLowerStr hs
                  ++ "));\n        require(tx.outputs[" ++ toString (0 : Nat)
                  ++ "].value >= tx.inputs[0].value - 1000);"))
          ++ "\n    \x7d\n\x7d\n"
        constructorArgs := [{ name := "unlockTime", type := ArgType.int, timeOffsetSeconds := some (d * 86400) }]
        error := none } := by
  have hv : v ≠ "" := by
    intro hcon
    rw [hcon] at h1
    have := congrArg String.data h1
    simp [jsTrim] at this
  have hlow : toLowerStr hs ≠ "" := by
    intro hcon
    have hd := congrArg String.data hcon
    simp [toLowerStr] at hd
    rw [hd] at h2
    simp at h2
  have heta : ({ data := hs.data } : String) = hs := rfl
  simp [compile, timePassedSendGraph, validateGraph, sortNodes, sortNodesFuel, visit, nodeMapLookup,
    collectConstructorArgs, collectConstructorArgsAux, insertArgs, getBlockTemplate,
    triggerTemplate, actionTemplate, needsSignature, getFunctionSignature,
    generateConstructorArgs, generateFunctionBody, branchOwnedIds, mainLoopLines, findEdge,
    str_append_eq_empty_iff, strTruthy, hv, normalizeRecipientHash, h1, hexMatch40, h2, h3,
    hlow, heta, Except.map, String.length, ArgType.str, String.intercalate,
    String.intercalate.go]

theorem time_passed_literal_wiring_amended_witness :
    jsTrim "0xF4B4e67c87d5d88fff9f271a1f25a4be0d1a1234" =
      "0x" ++ "F4B4e67c87d5d88fff9f271a1f25a4be0d1a1234" ∧
    compile (timePassedSendGraph 90 "0xF4B4e67c87d5d88fff9f271a1f25a4be0d1a1234") =
      { source := "pragma cashscript ^0.10.0;\n\ncontract GeneratedContract(\n    int unlockTime\n) \x7b\n    function execute(sig s, pubkey pk) \x7b\n        // Verify signature\n        require(checkSig(s, pk));\n\n"
          ++ ("        // TRIGGER: Time passed (" ++ toString (90 : Int) ++ " " ++ "days"
               ++ ")\n        require(tx.time >= unlockTime);" ++ "\n\n"
               ++ ("        // ACTION: Send BCH to recipient\n        require(tx.outputs[" ++ toString (0 : Nat)
                  ++ "].lockingBytecode == new LockingBytecodeP2PKH(0x"
                  ++ toLowerStr "F4B4e67c87d5d88fff9f271a1f25a4be0d1a1234"
                  ++ "));\n        require(tx.outputs[" ++ toString (0 : Nat)
                  ++ "].value >= tx.inputs[0].value - 1000);"))
          ++ "\n    \x7d\n\x7d\n"
        constructorArgs := [{ name := "unlockTime", type := ArgType.int, timeOffsetSeconds := some (90 * 86400 : Int) }]
        error := none } :=
  ⟨by decide,
   time_passed_literal_wiring_amended 90 "0xF4B4e67c87d5d88fff9f271a1f25a4be0d1a1234"
     "F4B4e67c87d5d88fff9f271a1f25a4be0d1a1234" (by decide) (by decide) (by decide)⟩

/-- The standard signature guard that compile prepends to the function
body in single-signature mode. -/
def stdGuardStr : String :=
  "        // Verify signature\n        require(checkSig(s, pk));\n\n"

/-- The closing braces that compile appends after the function body. -/
def srcFooterStr : String := "\n    \x7d\n\x7d\n"

/-- The four comment headers: every nonempty template snippet and every
emitted conditional wrapper starts with one of them. -/
def lineHeaders : List String :=
  ["        // TRIGGER", "        // LOGIC", "        // ACTION", "        // STATE"]

/-- Character data of a concatenation. -/
theorem strData_append (a b : String) : (a ++ b).data = a.data ++ b.data := rfl

/-- A data-level leading segment survives appending on the right. -/
theorem isPrefix_data_append (hdr a b : String) (h : hdr.data <+: a.data) :
    hdr.data <+: (a ++ b).data := by
  rw [strData_append]
  exact h.trans (List.prefix_append a.data b.data)

/-- Every block template either has empty code or its code starts with one
of the four category comment headers. -/
theorem getBlockTemplate_code_headed (type : BlockType) (params : BlockParams)
    (category : BlockCategory) (outputIndex : Nat) :
    (getBlockTemplate type params category outputIndex).code = "" ∨
    ∃ hdr ∈ lineHeaders, hdr.data <+: (getBlockTemplate type params category outputIndex).code.data := by
  cases category <;> cases type <;>
    simp only [getBlockTemplate, triggerTemplate, logicTemplate, actionTemplate, stateTemplate] <;>
    (try split) <;> (try split) <;> (try split) <;> (try split) <;>
    first
      | exact Or.inl rfl
      | exact Or.inl trivial
      | (refine Or.inr ⟨"        // TRIGGER", by simp [lineHeaders], ?_⟩
         repeat' apply isPrefix_data_append
         decide)
      | (refine Or.inr ⟨"        // LOGIC", by simp [lineHeaders], ?_⟩
         repeat' apply isPrefix_data_append
         decide)
      | (refine Or.inr ⟨"        // ACTION", by simp [lineHeaders], ?_⟩
         repeat' apply isPrefix_data_append
         decide)
      | (refine Or.inr ⟨"        // STATE", by simp [lineHeaders], ?_⟩
         repeat' apply isPrefix_data_append
         decide)

/-- Inversion for a successful Except bind. -/
theorem except_bind_ok {A B : Type} (M : Except String A) (f : A → Except String B) (b : B)
    (h : M >>= f = .ok b) : ∃ a, M = .ok a ∧ f a = .ok b := by
  cases M with
  | error e => simp [Bind.bind, Except.bind] at h
  | ok a => exact ⟨a, rfl, by simpa [Bind.bind, Except.bind] using h⟩

/-- Every line emitted by the main loop starts with one of the four
category comment headers: template lines by getBlockTemplate_code_headed,
conditional wrappers by their leading LOGIC literal. -/
theorem mainLoopLines_lines_headed (nm : List BlockNode) (ed : List Edge)
    (bids : List String) (fuel : Nat) :
    ∀ (nodes : List BlockNode) (k : Nat) (lines : List String),
      mainLoopLines nm ed bids fuel nodes k = .ok lines →
      ∀ l ∈ lines, ∃ hdr ∈ lineHeaders, hdr.data <+: l.data := by
  intro nodes
  induction nodes with
  | nil =>
    intro k lines h l hl
    simp only [mainLoopLines] at h
    cases h
    simp at hl
  | cons node rest ih =>
    intro k lines h l hl
    simp only [mainLoopLines] at h
    split at h
    · exact ih _ _ h l hl
    · split at h
      · exact absurd h (by simp)
      · rename_i oline hstep
        split at h
        · exact absurd h (by simp)
        · rename_i rlines hrec
          split at h
          · rename_i l2
            cases h
            rcases List.mem_cons.mp hl with rfl | hmem
            · -- headed l2 from hstep
              split at hstep
              · -- IF_ELSE wrapper: four leaf shapes, all starting with the
                -- same literal
                split at hstep <;>
                · obtain ⟨y, hM, h2⟩ := except_bind_ok _ _ _ hstep
                  split at h2 <;>
                  · obtain ⟨y1, hN, h3⟩ := except_bind_ok _ _ _ h2
                    simp only [pure, Except.pure, Except.ok.injEq, Option.some.injEq] at h3
                    subst h3
                    refine ⟨"        // LOGIC", by simp [lineHeaders], ?_⟩
                    repeat' apply isPrefix_data_append
                    decide
              · -- template line
                split at hstep
                · exact absurd hstep (by simp)
                · split at hstep <;>
                  · split at hstep
                    · exact absurd hstep (by simp)
                    · rename_i hne
                      simp only [Except.ok.injEq, Option.some.injEq] at hstep
                      subst hstep
                      rcases getBlockTemplate_code_headed node.type node.params node.category _ with
                        hempty | hheaded
                      · exact absurd hempty hne
                      · exact hheaded
            · exact ih _ _ hrec l hmem
          · cases h
            exact ih _ _ hrec l hl

/-- The intercalate accumulator only ever grows to the right. -/
theorem intercalate_go_data (sep : String) :
    ∀ (bs : List String) (a : String),
      ∃ t, (String.intercalate.go a sep bs).data = a.data ++ t := by
  intro bs
  induction bs with
  | nil => intro a; exact ⟨[], by simp [String.intercalate.go]⟩
  | cons b bs ih =>
    intro a
    obtain ⟨t, ht⟩ := ih (a ++ sep ++ b)
    refine ⟨sep.data ++ b.data ++ t, ?_⟩
    rw [String.intercalate.go, ht]
    simp [strData_append, List.append_assoc]

/-- A joined nonempty line list starts with its first line. -/
theorem intercalate_cons_data (sep l : String) (ls : List String) :
    ∃ t, (String.intercalate sep (l :: ls)).data = l.data ++ t := by
  rw [String.intercalate]
  exact intercalate_go_data sep ls l

/-- A line starting with a category comment header can never begin with
the standard signature guard, whatever follows the line: the two disagree
at character position 11. -/
theorem headed_line_no_guard (l : String) (X : List Char)
    (hh : ∃ hdr ∈ lineHeaders, hdr.data <+: l.data)
    (hg : stdGuardStr.data <+: l.data ++ X) : False := by
  obtain ⟨hdr, hmem, t, ht⟩ := hh
  obtain ⟨u, hu⟩ := hg
  rw [← ht, List.append_assoc] at hu
  have h11 : (hdr.data ++ (t ++ X))[11]? = (stdGuardStr.data ++ u)[11]? := by rw [hu]
  simp only [lineHeaders, List.mem_cons, List.not_mem_nil, or_false] at hmem
  rcases hmem with rfl | rfl | rfl | rfl <;>
  · rw [List.getElem?_append_left (by decide), List.getElem?_append_left (by decide)] at h11
    exact absurd h11 (by decide)

/-- The source text compile emits before the optional signature guard:
pragma, contract name, constructor section and function signature. -/
def sourceHeader (graph : BlockGraph) : String :=
  let sortedNodes := sortNodes graph
  let sn := needsSignature sortedNodes
  let constructorArgs :=
    match collectConstructorArgs sortedNodes with
    | .ok args => args
    | .error _ => []
  let functionSig := getFunctionSignature sn.hasSig sn.hasMultisig sn.sigCount sn.hasHashLock
  let constructorArgsStr := generateConstructorArgs constructorArgs
  let constructorSection :=
    if constructorArgsStr ≠ "" then "(\n" ++ constructorArgsStr ++ "\n)" else "()"
  "pragma cashscript ^0.10.0;\n\ncontract " ++ "GeneratedContract" ++ constructorSection
    ++ " \x7b\n    " ++ functionSig ++ " \x7b\n"

/-- Decomposition of every successful compile: the source is the header,
then the signature guard exactly under the single-signature test, then the
joined main-loop lines, then the closing braces. -/
theorem compile_success_decomp (graph : BlockGraph) (h : (compile graph).error = none) :
    ∃ lines,
      mainLoopLines (sortNodes graph) graph.edges
        (branchOwnedIds (sortNodes graph) (sortNodes graph) graph.edges
          ((sortNodes graph).length + 1))
        ((sortNodes graph).length * (sortNodes graph).length + (sortNodes graph).length + 1)
        (sortNodes graph) 0 = .ok lines ∧
      (compile graph).source =
        sourceHeader graph
          ++ (if (needsSignature (sortNodes graph)).hasSig
                && !(needsSignature (sortNodes graph)).hasMultisig
              then stdGuardStr else "")
          ++ String.intercalate "\n\n" lines ++ srcFooterStr := by
  by_cases hv : 0 < (validateGraph graph).length
  · rw [compile, if_pos hv] at h
    exact absurd h (by simp)
  · rcases hc : collectConstructorArgs (sortNodes graph) with msg | cargs
    · rw [compile, if_neg hv] at h
      simp only [sortNodes] at h
      simp only [sortNodes] at hc
      rw [hc] at h
      exact absurd h (by simp)
    · rcases hml : mainLoopLines (sortNodes graph) graph.edges
          (branchOwnedIds (sortNodes graph) (sortNodes graph) graph.edges
            ((sortNodes graph).length + 1))
          ((sortNodes graph).length * (sortNodes graph).length + (sortNodes graph).length + 1)
          (sortNodes graph) 0 with msg | lines
      · rw [compile, if_neg hv] at h
        simp only [sortNodes] at h hc hml
        rw [hc] at h
        simp only [generateFunctionBody] at h
        rw [hml] at h
        simp [Except.map] at h
      · refine ⟨lines, rfl, ?_⟩
        rw [compile, if_neg hv]
        simp only [sortNodes] at hc hml ⊢
        rw [hc]
        simp only [generateFunctionBody]
        rw [hml]
        simp only [sourceHeader, sortNodes, hc, Except.map]
        apply String.ext
        simp [strData_append, List.append_assoc, srcFooterStr, stdGuardStr]

/-- The needsSignature fold never clears hasSig, and any CHECK_ADDRESS
node in the remaining list forces it. -/
theorem needsSignature_foldl_hasSig :
    ∀ (l : List BlockNode) (st : SignatureNeeds),
      ((∃ n ∈ l, n.type = BlockType.CHECK_ADDRESS) ∨ st.hasSig = true) →
      (List.foldl
        (fun st node =>
          let st := if node.type == BlockType.CHECK_ADDRESS then { st with hasSig := true } else st
          let st := if node.type == BlockType.HASH_LOCK then { st with hasHashLock := true } else st
          let st :=
            if node.type == BlockType.MULTISIG_SIGNED then
              { st with hasMultisig := true, sigCount := node.params.required.getD 2 }
            else st
          if node.category == BlockCategory.action then { st with hasSig := true } else st)
        st l).hasSig = true := by
  intro l
  induction l with
  | nil =>
    intro st h
    rcases h with ⟨n, hn, _⟩ | h
    · simp at hn
    · exact h
  | cons m l ih =>
    intro st h
    rw [List.foldl_cons]
    apply ih
    rcases h with ⟨n, hn, hnty⟩ | hsig
    · rcases List.mem_cons.mp hn with rfl | hn2
      · right
        have h1 : (n.type == BlockType.CHECK_ADDRESS) = true := by simp [hnty]
        dsimp only
        simp only [h1, if_true]
        split <;> split <;> split <;> simp
      · exact Or.inl ⟨n, hn2, hnty⟩
    · right
      dsimp only
      split <;> split <;> split <;> split <;> simp_all

/-- A CHECK_ADDRESS node anywhere in the node list makes needsSignature
report hasSig. -/
theorem needsSignature_hasSig_of_mem (nodes : List BlockNode) (n : BlockNode)
    (hmem : n ∈ nodes) (hty : n.type = BlockType.CHECK_ADDRESS) :
    (needsSignature nodes).hasSig = true := by
  rw [needsSignature]
  exact needsSignature_foldl_hasSig nodes _ (Or.inl ⟨n, hmem, hty⟩)

theorem strData_empty : ("" : String).data = [] := rfl

/-- For every graph that compiles without error, the source continues with
the standard signature guard right after the header exactly when
single-signature mode was chosen. -/
theorem guard_prepended_iff_mode (graph : BlockGraph) (h : (compile graph).error = none) :
    startsWithStr (compile graph).source (sourceHeader graph ++ stdGuardStr) = true ↔
    ((needsSignature (sortNodes graph)).hasSig
      && !(needsSignature (sortNodes graph)).hasMultisig) = true := by
  obtain ⟨lines, hml, hsrc⟩ := compile_success_decomp graph h
  constructor
  · intro hsw
    by_contra hmode
    rw [if_neg hmode] at hsrc
    rw [hsrc] at hsw
    have hpre := List.isPrefixOf_iff_prefix.mp hsw
    simp only [strData_append, strData_empty, List.append_nil, List.append_assoc] at hpre
    have hpre2 := (List.prefix_append_right_inj (sourceHeader graph).data).mp hpre
    rcases lines with _ | ⟨l0, ls⟩
    · exact absurd hpre2 (by decide)
    · obtain ⟨t, ht⟩ := intercalate_cons_data "\n\n" l0 ls
      rw [ht, List.append_assoc] at hpre2
      exact headed_line_no_guard l0 (t ++ srcFooterStr.data)
        (mainLoopLines_lines_headed _ _ _ _ _ _ _ hml l0 (List.mem_cons_self l0 ls))
        hpre2
  · intro hmode
    rw [if_pos hmode] at hsrc
    show List.isPrefixOf _ _ = true
    apply List.isPrefixOf_iff_prefix.mpr
    rw [hsrc]
    apply isPrefix_data_append
    apply isPrefix_data_append
    exact List.prefix_refl _

/-- A CHECK_ADDRESS graph under a multisig trigger: signature mode is
multisig, so the standard guard is not prepended. -/
def multisigCheckGraph : BlockGraph :=
  { trigger := some { id := "t", type := .MULTISIG_SIGNED, category := .trigger, params := {}, children := ["l"] }
    nodes := [{ id := "t", type := .MULTISIG_SIGNED, category := .trigger, params := {}, children := ["l"] },
              { id := "l", type := .CHECK_ADDRESS, category := .logic, params := {}, children := ["x"] },
              { id := "x", type := .SEND_BACK, category := .action, params := {}, children := [] }]
    edges := [{ fromId := "t", toId := "l", type := EdgeType.next }] }

/-- Graph family for C4: a BCH_RECEIVED trigger chained to a CHECK_ADDRESS
logic node and a SEND_BACK action. -/
def checkAddressGraph (m : Option Int) : BlockGraph :=
  { trigger := some { id := "t", type := .BCH_RECEIVED, category := .trigger, params := { minAmount := m }, children := ["l"] }
    nodes := [{ id := "t", type := .BCH_RECEIVED, category := .trigger, params := { minAmount := m }, children := ["l"] },
              { id := "l", type := .CHECK_ADDRESS, category := .logic, params := {}, children := ["x"] },
              { id := "x", type := .SEND_BACK, category := .action, params := {}, children := [] }]
    edges := [{ fromId := "t", toId := "l", type := EdgeType.next }] }

/-- C4 counterexample: for a concrete graph containing a CHECK_ADDRESS
node, the compiled source contains the checkSig guard twice — the standard
prepended guard is NOT suppressed, contradicting the claim. -/
theorem check_address_guard_counterexample :
    countOccur (compile (checkAddressGraph none)).source "require(checkSig(s, pk));" = 2 := by
  decide

/-- C4 amended: the standard signature guard is prepended to the function
body if and only if single-signature mode is chosen — for every graph that
compiles without error, the source continues with the guard right after
the header exactly when hasSig is set and no multisig trigger is present;
every graph containing a CHECK_ADDRESS node sets hasSig, and nothing
suppresses the guard for CHECK_ADDRESS: in the concrete CHECK_ADDRESS
family, for every minimum amount, the compiled source carries both the
prepended standard guard and the CHECK_ADDRESS template guard, so checkSig
appears twice (the separate counterexample theorem counts the
occurrences). -/
theorem check_address_guard_amended :
    (∀ (graph : BlockGraph), (compile graph).error = none →
      (startsWithStr (compile graph).source (sourceHeader graph ++ stdGuardStr) = true ↔
       ((needsSignature (sortNodes graph)).hasSig
         && !(needsSignature (sortNodes graph)).hasMultisig) = true)) ∧
    (∀ (nodes : List BlockNode) (n : BlockNode), n ∈ nodes →
      n.type = BlockType.CHECK_ADDRESS → (needsSignature nodes).hasSig = true) ∧
    (∀ (m : Option Int),
      compile (checkAddressGraph m) =
        { source := "pragma cashscript ^0.10.0;\n\ncontract GeneratedContract() \x7b\n    function execute(sig s, pubkey pk) \x7b\n        // Verify signature\n        require(checkSig(s, pk));\n\n"
            ++ String.intercalate "\n\n"
              ["        // TRIGGER: BCH received\n        require(tx.inputs[0].value >= "
                 ++ toString (m.getD 10000) ++ ");",
               "        // LOGIC: Check signature matches address\n        require(hash160(pk) == recipientHash);\n        require(checkSig(s, pk));",
               "        // ACTION: Send back to contract\n        require(tx.outputs[" ++ toString (0 : Nat)
                 ++ "].lockingBytecode == new LockingBytecodeP2SH32(hash256(this.activeBytecode)));"]
            ++ "\n    \x7d\n\x7d\n"
          constructorArgs := []
          error := none }) := by
  refine ⟨guard_prepended_iff_mode, needsSignature_hasSig_of_mem, ?_⟩
  intro m
  simp [compile, checkAddressGraph, validateGraph, sortNodes, sortNodesFuel, visit, nodeMapLookup,
    collectConstructorArgs, collectConstructorArgsAux, insertArgs, getBlockTemplate,
    triggerTemplate, logicTemplate, actionTemplate, needsSignature, getFunctionSignature,
    generateConstructorArgs, generateFunctionBody, branchOwnedIds, mainLoopLines, findEdge,
    str_append_eq_empty_iff, Except.map]

theorem check_address_guard_amended_witness :
    ((compile (checkAddressGraph none)).error = none ∧
     startsWithStr (compile (checkAddressGraph none)).source
       (sourceHeader (checkAddressGraph none) ++ stdGuardStr) = true) ∧
    ((compile multisigCheckGraph).error = none ∧
     ((needsSignature (sortNodes multisigCheckGraph)).hasSig
       && !(needsSignature (sortNodes multisigCheckGraph)).hasMultisig) = false ∧
     startsWithStr (compile multisigCheckGraph).source
       (sourceHeader multisigCheckGraph ++ stdGuardStr) = false) ∧
    (needsSignature (sortNodes multisigCheckGraph)).hasSig = true := by
  refine ⟨⟨by decide, ?_⟩, ⟨by decide, by decide, ?_⟩, ?_⟩
  · exact (check_address_guard_amended.1 (checkAddressGraph none) (by decide)).mpr (by decide)
  · cases hsw : startsWithStr (compile multisigCheckGraph).source
        (sourceHeader multisigCheckGraph ++ stdGuardStr) with
    | false => rfl
    | true =>
      exact absurd ((check_address_guard_amended.1 multisigCheckGraph (by decide)).mp hsw)
        (by decide)
  · exact check_address_guard_amended.2.1 (sortNodes multisigCheckGraph)
      { id := "l", type := .CHECK_ADDRESS, category := .logic, params := {}, children := ["x"] }
      (by decide) rfl

/-- Graph family for C1: Trigger → SplitPercent → ActionA → ActionB as a
linear next-chain. -/
def splitGraph (tp sp : BlockParams) (aType : BlockType) (aParams : BlockParams)
    (bType : BlockType) (bParams : BlockParams) : BlockGraph :=
  { trigger := some { id := "t", type := .BCH_RECEIVED, category := .trigger, params := tp, children := ["s"] }
    nodes := [{ id := "t", type := .BCH_RECEIVED, category := .trigger, params := tp, children := ["s"] },
              { id := "s", type := .SPLIT_PERCENT, category := .action, params := sp, children := ["a"] },
              { id := "a", type := aType, category := .action, params := aParams, children := ["b"] },
              { id := "b", type := bType, category := .action, params := bParams, children := [] }]
    edges := [{ fromId := "t", toId := "s", type := EdgeType.next },
              { fromId := "s", toId := "a", type := EdgeType.next },
              { fromId := "a", toId := "b", type := EdgeType.next }] }

/-- C1: for every split chain Trigger → SplitPercent → ActionA → ActionB,
the generated body is the trigger guard, then the split template evaluated
at slot 0 — whose own guard constrains outputs 0 and 1 — then ActionA's
template at output slot 0 and ActionB's template at output slot 1: the
slot counter is not advanced for the SPLIT_PERCENT node itself and is
advanced once after the other action node. -/
theorem split_percent_slot_consistency (tp sp : BlockParams)
    (aType : BlockType) (aParams : BlockParams) (bType : BlockType) (bParams : BlockParams)
    (ha1 : aType ≠ .IF_ELSE) (ha2 : aType ≠ .SPLIT_PERCENT) (hb1 : bType ≠ .IF_ELSE)
    (hea : (actionTemplate aType aParams 0).error = none)
    (heb : (actionTemplate bType bParams 1).error = none)
    (hca : (actionTemplate aType aParams 0).code ≠ "")
    (hcb : (actionTemplate bType bParams 1).code ≠ "") :
    generateFunctionBody (sortNodes (splitGraph tp sp aType aParams bType bParams))
      (splitGraph tp sp aType aParams bType bParams).edges =
      .ok ("        // TRIGGER: BCH received\n        require(tx.inputs[0].value >= "
        ++ toString (tp.minAmount.getD 10000) ++ ");" ++ "\n\n"
        ++ ("        // ACTION: Split " ++ toString (sp.percent.getD 50) ++ "% / "
            ++ toString (100 - sp.percent.getD 50)
            ++ "%\n        int totalValue = tx.inputs[0].value - 1000;\n        int firstOutput = totalValue * "
            ++ toString (sp.percent.getD 50)
            ++ " / 100;\n        int secondOutput = totalValue - firstOutput;\n        require(tx.outputs["
            ++ toString (0 : Nat) ++ "].value >= firstOutput);\n        require(tx.outputs["
            ++ toString (1 : Nat) ++ "].value >= secondOutput);")
        ++ "\n\n" ++ (actionTemplate aType aParams 0).code
        ++ "\n\n" ++ (actionTemplate bType bParams 1).code) := by
  have ha1' : (aType == BlockType.IF_ELSE) = false := beq_eq_false_iff_ne.mpr ha1
  have ha2' : (aType == BlockType.SPLIT_PERCENT) = false := beq_eq_false_iff_ne.mpr ha2
  have hb1' : (bType == BlockType.IF_ELSE) = false := beq_eq_false_iff_ne.mpr hb1
  have htr : triggerTemplate BlockType.BCH_RECEIVED tp =
      { code := "        // TRIGGER: BCH received\n        require(tx.inputs[0].value >= "
          ++ toString (tp.minAmount.getD 10000) ++ ");"
        constructorArgs := [] } := rfl
  have hsp : actionTemplate BlockType.SPLIT_PERCENT sp 0 =
      { code := "        // ACTION: Split " ++ toString (sp.percent.getD 50) ++ "% / "
          ++ toString (100 - sp.percent.getD 50)
          ++ "%\n        int totalValue = tx.inputs[0].value - 1000;\n        int firstOutput = totalValue * "
          ++ toString (sp.percent.getD 50) ++ " / 100;\n        int secondOutput = totalValue - firstOutput;\n        require(tx.outputs["
          ++ toString (0 : Nat) ++ "].value >= firstOutput);\n        require(tx.outputs["
          ++ toString (0 + 1 : Nat) ++ "].value >= secondOutput);"
        constructorArgs := [] } := rfl
  simp [splitGraph, sortNodes, sortNodesFuel, visit, nodeMapLookup, getBlockTemplate,
    generateFunctionBody, branchOwnedIds, mainLoopLines,
    findEdge, str_append_eq_empty_iff, ha1', ha2', hb1', hea, heb, hca, hcb, bne,
    htr, hsp, Except.map, String.length, String.intercalate, String.intercalate.go]

theorem split_percent_slot_consistency_witness :
    generateFunctionBody
      (sortNodes (splitGraph { minAmount := some 25000 } { percent := some 30 }
        .SEND_BACK {} .TIME_LOCK_OUTPUT {}))
      (splitGraph { minAmount := some 25000 } { percent := some 30 }
        .SEND_BACK {} .TIME_LOCK_OUTPUT {}).edges =
      .ok ("        // TRIGGER: BCH received\n        require(tx.inputs[0].value >= "
        ++ toString (25000 : Int) ++ ");" ++ "\n\n"
        ++ ("        // ACTION: Split " ++ toString (30 : Int) ++ "% / "
            ++ toString (100 - 30 : Int)
            ++ "%\n        int totalValue = tx.inputs[0].value - 1000;\n        int firstOutput = totalValue * "
            ++ toString (30 : Int)
            ++ " / 100;\n        int secondOutput = totalValue - firstOutput;\n        require(tx.outputs["
            ++ toString (0 : Nat) ++ "].value >= firstOutput);\n        require(tx.outputs["
            ++ toString (1 : Nat) ++ "].value >= secondOutput);")
        ++ "\n\n" ++ (actionTemplate .SEND_BACK {} 0).code
        ++ "\n\n" ++ (actionTemplate .TIME_LOCK_OUTPUT {} 1).code) :=
  split_percent_slot_consistency { minAmount := some 25000 } { percent := some 30 }
    .SEND_BACK {} .TIME_LOCK_OUTPUT {}
    (by decide) (by decide) (by decide) (by decide) (by decide) (by decide) (by decide)

/-- Node list for C2: Trigger → Conditional with a THEN arm and an ELSE
arm of one action each (the parser records the arm heads as the
conditional's children and the arm edges as condition_true and
condition_false). -/
def branchGraphNodes (tp cp : BlockParams) (aType : BlockType) (aParams : BlockParams)
    (bType : BlockType) (bParams : BlockParams) : List BlockNode :=
  [{ id := "t", type := .BCH_RECEIVED, category := .trigger, params := tp, children := ["c"] },
   { id := "c", type := .IF_ELSE, category := .logic, params := cp, children := ["a", "b"] },
   { id := "a", type := aType, category := .action, params := aParams, children := [] },
   { id := "b", type := bType, category := .action, params := bParams, children := [] }]

/-- Edge list for C2. -/
def branchGraphEdges : List Edge :=
  [{ fromId := "t", toId := "c", type := EdgeType.next },
   { fromId := "c", toId := "a", type := EdgeType.condition_true },
   { fromId := "c", toId := "b", type := EdgeType.condition_false }]

/-- C2: for a Trigger → Conditional graph with one action in each arm,
both arms are assembled with the slot-counter value current at the
conditional.  First conjunct: whatever slot-counter value k the main loop
holds when it reaches the conditional, and whatever fuel remains, the
conditional emits one if/else wrapper whose THEN arm template and ELSE arm
template are both evaluated at that same slot k — neither arm at k + 1 and
neither reset to 0.  Second conjunct: on the whole graph the counter at
the conditional is 0, so the full generated body wraps both arm templates
evaluated at output slot 0 around the resolved condition expression. -/
theorem conditional_arms_same_slot (tp cp : BlockParams)
    (aType : BlockType) (aParams : BlockParams) (bType : BlockType) (bParams : BlockParams)
    (ha1 : aType ≠ .IF_ELSE) (hb1 : bType ≠ .IF_ELSE)
    (hea : (actionTemplate aType aParams 0).error = none)
    (heb : (actionTemplate bType bParams 0).error = none)
    (hca : (actionTemplate aType aParams 0).code ≠ "")
    (hcb : (actionTemplate bType bParams 0).code ≠ "") :
    (∀ (f k : Nat),
      (actionTemplate aType aParams k).error = none →
      (actionTemplate bType bParams k).error = none →
      (actionTemplate aType aParams k).code ≠ "" →
      (actionTemplate bType bParams k).code ≠ "" →
      mainLoopLines (branchGraphNodes tp cp aType aParams bType bParams) branchGraphEdges
        ["b", "a"] (f + 1)
        [{ id := "c", type := .IF_ELSE, category := .logic, params := cp, children := ["a", "b"] },
         { id := "a", type := aType, category := .action, params := aParams, children := [] },
         { id := "b", type := bType, category := .action, params := bParams, children := [] }] k =
      .ok ["        // LOGIC: Conditional branch\n        if (" ++ cp.conditionExpr.getD "true"
            ++ ") \x7b\n" ++ (reindentTemplate (actionTemplate aType aParams k).code ++ "\n")
            ++ "        \x7d else \x7b\n"
            ++ (reindentTemplate (actionTemplate bType bParams k).code ++ "\n")
            ++ "        \x7d"]) ∧
    generateFunctionBody (branchGraphNodes tp cp aType aParams bType bParams) branchGraphEdges =
      .ok ("        // TRIGGER: BCH received\n        require(tx.inputs[0].value >= "
        ++ toString (tp.minAmount.getD 10000) ++ ");" ++ "\n\n"
        ++ ("        // LOGIC: Conditional branch\n        if (" ++ cp.conditionExpr.getD "true"
            ++ ") \x7b\n" ++ (reindentTemplate (actionTemplate aType aParams 0).code ++ "\n")
            ++ "        \x7d else \x7b\n"
            ++ (reindentTemplate (actionTemplate bType bParams 0).code ++ "\n")
            ++ "        \x7d")) := by
  have ha1' : (aType == BlockType.IF_ELSE) = false := beq_eq_false_iff_ne.mpr ha1
  have hb1' : (bType == BlockType.IF_ELSE) = false := beq_eq_false_iff_ne.mpr hb1
  refine ⟨?_, ?_⟩
  · intro f k hea2 heb2 hca2 hcb2
    have hGA2 : generateBranchLines (branchGraphNodes tp cp aType aParams bType bParams)
        branchGraphEdges (f + 1) (some "a") k =
        .ok [reindentTemplate (actionTemplate aType aParams k).code] := by
      simp [generateBranchLines, branchGraphNodes, branchGraphEdges, nodeMapLookup, findEdge,
        ha1', getBlockTemplate, hea2, hca2, genBranchLines_none]
    have hGB2 : generateBranchLines (branchGraphNodes tp cp aType aParams bType bParams)
        branchGraphEdges (f + 1) (some "b") k =
        .ok [reindentTemplate (actionTemplate bType bParams k).code] := by
      simp [generateBranchLines, branchGraphNodes, branchGraphEdges, nodeMapLookup, findEdge,
        hb1', getBlockTemplate, heb2, hcb2, genBranchLines_none]
    simp only [branchGraphNodes, branchGraphEdges] at hGA2 hGB2
    simp [mainLoopLines, generateBranchCode, branchGraphNodes, branchGraphEdges, nodeMapLookup,
      findEdge, getBlockTemplate, str_append_eq_empty_iff, ha1', hb1', hGA2, hGB2,
      Except.map, Except.bind, Except.pure, bind, pure, String.length,
      String.intercalate, String.intercalate.go]
  have htr : triggerTemplate BlockType.BCH_RECEIVED tp =
      { code := "        // TRIGGER: BCH received\n        require(tx.inputs[0].value >= "
          ++ toString (tp.minAmount.getD 10000) ++ ");"
        constructorArgs := [] } := rfl
  have hA : collectBranchIds (branchGraphNodes tp cp aType aParams bType bParams)
      branchGraphEdges 5 "a" [] = ["a"] := by
    simp [collectBranchIds, branchGraphNodes, branchGraphEdges, nodeMapLookup, findEdge, ha1']
  have hB : collectBranchIds (branchGraphNodes tp cp aType aParams bType bParams)
      branchGraphEdges 5 "b" ["a"] = ["b", "a"] := by
    simp [collectBranchIds, branchGraphNodes, branchGraphEdges, nodeMapLookup, findEdge, hb1']
  have hGA : generateBranchLines (branchGraphNodes tp cp aType aParams bType bParams)
      branchGraphEdges 21 (some "a") 0 =
      .ok [reindentTemplate (actionTemplate aType aParams 0).code] := by
    simp [generateBranchLines, branchGraphNodes, branchGraphEdges, nodeMapLookup, findEdge,
      ha1', getBlockTemplate, hea, hca]
  have hGB : generateBranchLines (branchGraphNodes tp cp aType aParams bType bParams)
      branchGraphEdges 21 (some "b") 0 =
      .ok [reindentTemplate (actionTemplate bType bParams 0).code] := by
    simp [generateBranchLines, branchGraphNodes, branchGraphEdges, nodeMapLookup, findEdge,
      hb1', getBlockTemplate, heb, hcb]
  simp only [branchGraphNodes, branchGraphEdges] at hA hB hGA hGB
  simp [generateFunctionBody, branchOwnedIds, branchGraphNodes, branchGraphEdges, mainLoopLines,
    generateBranchCode, nodeMapLookup, findEdge, getBlockTemplate, str_append_eq_empty_iff,
    ha1', hb1', htr, hA, hB, hGA, hGB, Except.map, Except.bind, Except.pure, bind, pure,
    String.length, String.intercalate, String.intercalate.go]

theorem conditional_arms_same_slot_witness :
    (mainLoopLines
        (branchGraphNodes {} { conditionExpr := some "tx.inputs[0].value > 50000" }
          .SEND_BCH {} .SEND_BACK {}) branchGraphEdges ["b", "a"] 8
        [{ id := "c", type := .IF_ELSE, category := .logic,
           params := { conditionExpr := some "tx.inputs[0].value > 50000" }, children := ["a", "b"] },
         { id := "a", type := .SEND_BCH, category := .action, params := {}, children := [] },
         { id := "b", type := .SEND_BACK, category := .action, params := {}, children := [] }] 3 =
      .ok ["        // LOGIC: Conditional branch\n        if (tx.inputs[0].value > 50000) \x7b\n"
            ++ (reindentTemplate (actionTemplate .SEND_BCH {} 3).code ++ "\n")
            ++ "        \x7d else \x7b\n"
            ++ (reindentTemplate (actionTemplate .SEND_BACK {} 3).code ++ "\n")
            ++ "        \x7d"]) ∧
    generateFunctionBody
      (branchGraphNodes {} { conditionExpr := some "tx.inputs[0].value > 50000" }
        .SEND_BCH {} .SEND_BACK {}) branchGraphEdges =
      .ok ("        // TRIGGER: BCH received\n        require(tx.inputs[0].value >= "
        ++ toString (10000 : Int) ++ ");" ++ "\n\n"
        ++ ("        // LOGIC: Conditional branch\n        if (tx.inputs[0].value > 50000) \x7b\n"
            ++ (reindentTemplate (actionTemplate .SEND_BCH {} 0).code ++ "\n")
            ++ "        \x7d else \x7b\n"
            ++ (reindentTemplate (actionTemplate .SEND_BACK {} 0).code ++ "\n")
            ++ "        \x7d")) :=
  ⟨(conditional_arms_same_slot {} { conditionExpr := some "tx.inputs[0].value > 50000" }
      .SEND_BCH {} .SEND_BACK {}
      (by decide) (by decide) (by decide) (by decide) (by decide) (by decide)).1 7 3
      (by decide) (by decide) (by decide) (by decide),
   (conditional_arms_same_slot {} { conditionExpr := some "tx.inputs[0].value > 50000" }
      .SEND_BCH {} .SEND_BACK {}
      (by decide) (by decide) (by decide) (by decide) (by decide) (by decide)).2⟩

/-- Node list for C9: as C2, with an action continuing after the
conditional through its next edge (the parser records the continuation as
the conditional's first child). -/
def contGraphNodes (tp cp : BlockParams) (aType : BlockType) (aParams : BlockParams)
    (bType : BlockType) (bParams : BlockParams) (dType : BlockType) (dParams : BlockParams) :
    List BlockNode :=
  [{ id := "t", type := .BCH_RECEIVED, category := .trigger, params := tp, children := ["c"] },
   { id := "c", type := .IF_ELSE, category := .logic, params := cp, children := ["d", "a", "b"] },
   { id := "d", type := dType, category := .action, params := dParams, children := [] },
   { id := "a", type := aType, category := .action, params := aParams, children := [] },
   { id := "b", type := bType, category := .action, params := bParams, children := [] }]

/-- Edge list for C9. -/
def contGraphEdges : List Edge :=
  [{ fromId := "t", toId := "c", type := EdgeType.next },
   { fromId := "c", toId := "d", type := EdgeType.next },
   { fromId := "c", toId := "a", type := EdgeType.condition_true },
   { fromId := "c", toId := "b", type := EdgeType.condition_false }]

/-- C9: a conditional never advances the output-slot counter.  First
conjunct: whatever slot-counter value k the main loop holds when it
reaches the conditional, and whatever fuel remains, the conditional emits
its wrapper (both arm templates at slot k) and the action continuing after
it through its next edge is emitted at that same slot k — the counter is
neither advanced to k + 1 nor reset by the conditional.  Second conjunct:
on the whole graph the counter at the conditional is 0, so the
continuation action and the first action of either branch arm all claim
slot 0: slots claimed inside branches are reused by subsequent
main-sequence actions. -/
theorem conditional_does_not_advance_slot (tp cp : BlockParams)
    (aType : BlockType) (aParams : BlockParams) (bType : BlockType) (bParams : BlockParams)
    (dType : BlockType) (dParams : BlockParams)
    (ha1 : aType ≠ .IF_ELSE) (hb1 : bType ≠ .IF_ELSE) (hd1 : dType ≠ .IF_ELSE)
    (hea : (actionTemplate aType aParams 0).error = none)
    (heb : (actionTemplate bType bParams 0).error = none)
    (hed : (actionTemplate dType dParams 0).error = none)
    (hca : (actionTemplate aType aParams 0).code ≠ "")
    (hcb : (actionTemplate bType bParams 0).code ≠ "")
    (hcd : (actionTemplate dType dParams 0).code ≠ "") :
    (∀ (f k : Nat),
      (actionTemplate aType aParams k).error = none →
      (actionTemplate bType bParams k).error = none →
      (actionTemplate dType dParams k).error = none →
      (actionTemplate aType aParams k).code ≠ "" →
      (actionTemplate bType bParams k).code ≠ "" →
      (actionTemplate dType dParams k).code ≠ "" →
      mainLoopLines (contGraphNodes tp cp aType aParams bType bParams dType dParams)
        contGraphEdges ["b", "a"] (f + 1)
        [{ id := "c", type := .IF_ELSE, category := .logic, params := cp, children := ["d", "a", "b"] },
         { id := "d", type := dType, category := .action, params := dParams, children := [] },
         { id := "a", type := aType, category := .action, params := aParams, children := [] },
         { id := "b", type := bType, category := .action, params := bParams, children := [] }] k =
      .ok ["        // LOGIC: Conditional branch\n        if (" ++ cp.conditionExpr.getD "true"
            ++ ") \x7b\n" ++ (reindentTemplate (actionTemplate aType aParams k).code ++ "\n")
            ++ "        \x7d else \x7b\n"
            ++ (reindentTemplate (actionTemplate bType bParams k).code ++ "\n")
            ++ "        \x7d",
           (actionTemplate dType dParams k).code]) ∧
    generateFunctionBody (contGraphNodes tp cp aType aParams bType bParams dType dParams)
      contGraphEdges =
      .ok ("        // TRIGGER: BCH received\n        require(tx.inputs[0].value >= "
        ++ toString (tp.minAmount.getD 10000) ++ ");" ++ "\n\n"
        ++ ("        // LOGIC: Conditional branch\n        if (" ++ cp.conditionExpr.getD "true"
            ++ ") \x7b\n" ++ (reindentTemplate (actionTemplate aType aParams 0).code ++ "\n")
            ++ "        \x7d else \x7b\n"
            ++ (reindentTemplate (actionTemplate bType bParams 0).code ++ "\n")
            ++ "        \x7d")
        ++ "\n\n" ++ (actionTemplate dType dParams 0).code) := by
  have ha1' : (aType == BlockType.IF_ELSE) = false := beq_eq_false_iff_ne.mpr ha1
  have hb1' : (bType == BlockType.IF_ELSE) = false := beq_eq_false_iff_ne.mpr hb1
  have hd1' : (dType == BlockType.IF_ELSE) = false := beq_eq_false_iff_ne.mpr hd1
  refine ⟨?_, ?_⟩
  · intro f k hea2 heb2 hed2 hca2 hcb2 hcd2
    have hGA2 : generateBranchLines
        (contGraphNodes tp cp aType aParams bType bParams dType dParams)
        contGraphEdges (f + 1) (some "a") k =
        .ok [reindentTemplate (actionTemplate aType aParams k).code] := by
      simp [generateBranchLines, contGraphNodes, contGraphEdges, nodeMapLookup, findEdge,
        ha1', getBlockTemplate, hea2, hca2, genBranchLines_none]
    have hGB2 : generateBranchLines
        (contGraphNodes tp cp aType aParams bType bParams dType dParams)
        contGraphEdges (f + 1) (some "b") k =
        .ok [reindentTemplate (actionTemplate bType bParams k).code] := by
      simp [generateBranchLines, contGraphNodes, contGraphEdges, nodeMapLookup, findEdge,
        hb1', getBlockTemplate, heb2, hcb2, genBranchLines_none]
    simp only [contGraphNodes, contGraphEdges] at hGA2 hGB2
    simp [mainLoopLines, generateBranchCode, contGraphNodes, contGraphEdges, nodeMapLookup,
      findEdge, getBlockTemplate, str_append_eq_empty_iff, ha1', hb1', hd1', hGA2, hGB2,
      hed2, hcd2, Except.map, Except.bind, Except.pure, bind, pure, String.length,
      String.intercalate, String.intercalate.go]
  have htr : triggerTemplate BlockType.BCH_RECEIVED tp =
      { code := "        // TRIGGER: BCH received\n        require(tx.inputs[0].value >= "
          ++ toString (tp.minAmount.getD 10000) ++ ");"
        constructorArgs := [] } := rfl
  have hA : collectBranchIds (contGraphNodes tp cp aType aParams bType bParams dType dParams)
      contGraphEdges 6 "a" [] = ["a"] := by
    simp [collectBranchIds, contGraphNodes, contGraphEdges, nodeMapLookup, findEdge, ha1']
  have hB : collectBranchIds (contGraphNodes tp cp aType aParams bType bParams dType dParams)
      contGraphEdges 6 "b" ["a"] = ["b", "a"] := by
    simp [collectBranchIds, contGraphNodes, contGraphEdges, nodeMapLookup, findEdge, hb1']
  have hGA : generateBranchLines (contGraphNodes tp cp aType aParams bType bParams dType dParams)
      contGraphEdges 31 (some "a") 0 =
      .ok [reindentTemplate (actionTemplate aType aParams 0).code] := by
    simp [generateBranchLines, contGraphNodes, contGraphEdges, nodeMapLookup, findEdge,
      ha1', getBlockTemplate, hea, hca]
  have hGB : generateBranchLines (contGraphNodes tp cp aType aParams bType bParams dType dParams)
      contGraphEdges 31 (some "b") 0 =
      .ok [reindentTemplate (actionTemplate bType bParams 0).code] := by
    simp [generateBranchLines, contGraphNodes, contGraphEdges, nodeMapLookup, findEdge,
      hb1', getBlockTemplate, heb, hcb]
  simp only [contGraphNodes, contGraphEdges] at hA hB hGA hGB
  simp [generateFunctionBody, branchOwnedIds, contGraphNodes, contGraphEdges, mainLoopLines,
    generateBranchCode, nodeMapLookup, findEdge, getBlockTemplate, str_append_eq_empty_iff,
    ha1', hb1', hd1', htr, hea, heb, hed, hca, hcb, hcd,
    hA, hB, hGA, hGB, Except.map, Except.bind, Except.pure, bind, pure, String.length,
    String.intercalate, String.intercalate.go]

theorem conditional_does_not_advance_slot_witness :
    (mainLoopLines
        (contGraphNodes {} { conditionExpr := some "tx.inputs[0].value > 50000" }
          .SEND_BCH {} .SEND_BACK {} .TIME_LOCK_OUTPUT {}) contGraphEdges ["b", "a"] 10
        [{ id := "c", type := .IF_ELSE, category := .logic,
           params := { conditionExpr := some "tx.inputs[0].value > 50000" }, children := ["d", "a", "b"] },
         { id := "d", type := .TIME_LOCK_OUTPUT, category := .action, params := {}, children := [] },
         { id := "a", type := .SEND_BCH, category := .action, params := {}, children := [] },
         { id := "b", type := .SEND_BACK, category := .action, params := {}, children := [] }] 4 =
      .ok ["        // LOGIC: Conditional branch\n        if (tx.inputs[0].value > 50000) \x7b\n"
            ++ (reindentTemplate (actionTemplate .SEND_BCH {} 4).code ++ "\n")
            ++ "        \x7d else \x7b\n"
            ++ (reindentTemplate (actionTemplate .SEND_BACK {} 4).code ++ "\n")
            ++ "        \x7d",
           (actionTemplate .TIME_LOCK_OUTPUT {} 4).code]) ∧
    generateFunctionBody
      (contGraphNodes {} { conditionExpr := some "tx.inputs[0].value > 50000" }
        .SEND_BCH {} .SEND_BACK {} .TIME_LOCK_OUTPUT {}) contGraphEdges =
      .ok ("        // TRIGGER: BCH received\n        require(tx.inputs[0].value >= "
        ++ toString (10000 : Int) ++ ");" ++ "\n\n"
        ++ ("        // LOGIC: Conditional branch\n        if (tx.inputs[0].value > 50000) \x7b\n"
            ++ (reindentTemplate (actionTemplate .SEND_BCH {} 0).code ++ "\n")
            ++ "        \x7d else \x7b\n"
            ++ (reindentTemplate (actionTemplate .SEND_BACK {} 0).code ++ "\n")
            ++ "        \x7d")
        ++ "\n\n" ++ (actionTemplate .TIME_LOCK_OUTPUT {} 0).code) :=
  ⟨(conditional_does_not_advance_slot {} { conditionExpr := some "tx.inputs[0].value > 50000" }
      .SEND_BCH {} .SEND_BACK {} .TIME_LOCK_OUTPUT {}
      (by decide) (by decide) (by decide) (by decide) (by decide) (by decide)
      (by decide) (by decide) (by decide)).1 9 4
      (by decide) (by decide) (by decide) (by decide) (by decide) (by decide),
   (conditional_does_not_advance_slot {} { conditionExpr := some "tx.inputs[0].value > 50000" }
      .SEND_BCH {} .SEND_BACK {} .TIME_LOCK_OUTPUT {}
      (by decide) (by decide) (by decide) (by decide) (by decide) (by decide)
      (by decide) (by decide) (by decide)).2⟩

end CashBlocks
